import Mathlib

/-!
# Verification of the HyperPlatform-based VM-exit dispatch and emulation engine

A shallow embedding of `src/HyperPlatform/vmm.cpp` (the VM-exit dispatcher
`VmmVmExitHandler`, the per-reason emulation handlers, event injection, and the
guest-memory access windows), together with theorems settling the frozen
specification claims.

Modelling conventions:
* the x64 build is modelled (`IsX64()` is true, `UtilIsX86Pae()` is false,
  `ULONG_PTR` is 64 bits wide); machine integers are `Nat` reduced mod `2^64`
  (or `2^32` for 32-bit casts) exactly where the C++ types truncate;
* the VMCS is state (`VmcsField → Nat`); every `UtilVmRead`/`UtilVmWrite` is
  additionally recorded in an effect trace so that claims about which fields a
  path touches can be stated;
* real hardware operations (MSR, CPUID, TSC, I/O ports, debug registers, TLB
  invalidations, CR2/CR3 writes, guest-memory dereferences) are recorded in the
  same trace; values coming back from hardware are read from a `HostOracle`;
* a `HYPERPLATFORM_COMMON_BUG_CHECK` never returns in the C++; here it sets the
  `fatal` field of the machine, and every step that in the C++ would run after
  the (non-returning) call is guarded so that it does not run once `fatal` is
  set;
* bit-field layouts of the exit qualifications, the VM-entry interruption
  information field, access-right bytes, and the VMCS field encodings are the
  architectural (Intel SDM) layouts that the repository's headers mirror.
-/

namespace Vmm

/-- `2^64`, the modulus of `ULONG_PTR` arithmetic on the x64 build. -/
def W64 : Nat := 2 ^ 64

/-- Truncate to 64 bits (`ULONG_PTR`). -/
def mask64 (n : Nat) : Nat := n % W64

/-- 64-bit wrapping addition. -/
def add64 (a b : Nat) : Nat := (a + b) % W64

/-- 64-bit wrapping subtraction (`a - b` on unsigned 64-bit values). -/
def sub64 (a b : Nat) : Nat := (a % W64 + (W64 - b % W64)) % W64

/-- Truncate to 32 bits (`ULONG` / `unsigned int` casts). -/
def low32 (n : Nat) : Nat := n % 2 ^ 32

/-- Bits 32..63 of a 64-bit value (`LARGE_INTEGER.HighPart`). -/
def high32 (n : Nat) : Nat := (n / 2 ^ 32) % 2 ^ 32

/-- The guest general-purpose register file trapped on the VMM stack
(`GpRegisters`); the x64 layout with `r8`..`r15`. -/
structure GpRegisters where
  ax : Nat
  bx : Nat
  cx : Nat
  dx : Nat
  si : Nat
  di : Nat
  bp : Nat
  sp : Nat
  r8 : Nat
  r9 : Nat
  r10 : Nat
  r11 : Nat
  r12 : Nat
  r13 : Nat
  r14 : Nat
  r15 : Nat
  deriving DecidableEq, Repr

/-- The structured view of the guest's RFLAGS (`FlagRegister`): the named bits
the handlers read or write, plus `rest` carrying every other bit of the 64-bit
value (with the named bit positions zero). -/
structure FlagRegister where
  cf : Bool
  pf : Bool
  af : Bool
  zf : Bool
  sf : Bool
  tf : Bool
  df : Bool
  ofl : Bool
  rest : Nat
  deriving DecidableEq, Repr

/-- Mask of the named RFLAGS bits: CF(0), PF(2), AF(4), ZF(6), SF(7), TF(8),
DF(10), OF(11). -/
def flagNamedMask : Nat := 1 + 4 + 16 + 64 + 128 + 256 + 1024 + 2048

/-- Decode a raw RFLAGS value into the structured view. -/
def decodeFlags (n : Nat) : FlagRegister :=
  { cf := n.testBit 0
    pf := n.testBit 2
    af := n.testBit 4
    zf := n.testBit 6
    sf := n.testBit 7
    tf := n.testBit 8
    df := n.testBit 10
    ofl := n.testBit 11
    rest := n &&& (W64 - 1 - flagNamedMask) }

/-- Re-encode the structured flags view into a raw RFLAGS value
(`flag_reg.all`). -/
def FlagRegister.all (f : FlagRegister) : Nat :=
  (if f.cf then 1 else 0) + (if f.pf then 4 else 0) + (if f.af then 16 else 0) +
  (if f.zf then 64 else 0) + (if f.sf then 128 else 0) +
  (if f.tf then 256 else 0) + (if f.df then 1024 else 0) +
  (if f.ofl then 2048 else 0) + f.rest

/-- The VMCS fields read or written by this translation unit. -/
inductive VmcsField where
  | kGuestEsSelector
  | kGuestCsSelector
  | kGuestSsSelector
  | kGuestDsSelector
  | kGuestFsSelector
  | kGuestGsSelector
  | kGuestLdtrSelector
  | kGuestTrSelector
  | kGuestIa32Debugctl
  | kGuestPhysicalAddress
  | kVmEntryIntrInfoField
  | kVmEntryExceptionErrorCode
  | kVmEntryInstructionLen
  | kVmInstructionError
  | kVmExitReason
  | kVmExitIntrInfo
  | kVmExitIntrErrorCode
  | kVmExitInstructionLen
  | kVmxInstructionInfo
  | kGuestEsLimit
  | kGuestCsLimit
  | kGuestSsLimit
  | kGuestDsLimit
  | kGuestFsLimit
  | kGuestGsLimit
  | kGuestLdtrLimit
  | kGuestTrLimit
  | kGuestGdtrLimit
  | kGuestIdtrLimit
  | kGuestEsArBytes
  | kGuestCsArBytes
  | kGuestSsArBytes
  | kGuestDsArBytes
  | kGuestFsArBytes
  | kGuestGsArBytes
  | kGuestLdtrArBytes
  | kGuestTrArBytes
  | kGuestSysenterCs
  | kCr0ReadShadow
  | kCr4ReadShadow
  | kExitQualification
  | kGuestCr0
  | kGuestCr3
  | kGuestCr4
  | kGuestEsBase
  | kGuestCsBase
  | kGuestSsBase
  | kGuestDsBase
  | kGuestFsBase
  | kGuestGsBase
  | kGuestLdtrBase
  | kGuestTrBase
  | kGuestGdtrBase
  | kGuestIdtrBase
  | kGuestDr7
  | kGuestRsp
  | kGuestRip
  | kGuestRflags
  | kGuestPendingDbgExceptions
  | kGuestSysenterEsp
  | kGuestSysenterEip
  deriving DecidableEq, Repr

/-- The architectural VMCS field encodings (Intel SDM Appendix B); the
repository's `VmcsField` enumerators carry exactly these values.  Used only by
the width check `UtilIsInBounds(field, kIoBitmapA,
kHostIa32PerfGlobalCtrlHigh)` in the MSR handler. -/
def VmcsField.encoding : VmcsField → Nat
  | .kGuestEsSelector => 0x800
  | .kGuestCsSelector => 0x802
  | .kGuestSsSelector => 0x804
  | .kGuestDsSelector => 0x806
  | .kGuestFsSelector => 0x808
  | .kGuestGsSelector => 0x80A
  | .kGuestLdtrSelector => 0x80C
  | .kGuestTrSelector => 0x80E
  | .kGuestIa32Debugctl => 0x2802
  | .kGuestPhysicalAddress => 0x2400
  | .kVmEntryIntrInfoField => 0x4016
  | .kVmEntryExceptionErrorCode => 0x4018
  | .kVmEntryInstructionLen => 0x401A
  | .kVmInstructionError => 0x4400
  | .kVmExitReason => 0x4402
  | .kVmExitIntrInfo => 0x4404
  | .kVmExitIntrErrorCode => 0x4406
  | .kVmExitInstructionLen => 0x440C
  | .kVmxInstructionInfo => 0x440E
  | .kGuestEsLimit => 0x4800
  | .kGuestCsLimit => 0x4802
  | .kGuestSsLimit => 0x4804
  | .kGuestDsLimit => 0x4806
  | .kGuestFsLimit => 0x4808
  | .kGuestGsLimit => 0x480A
  | .kGuestLdtrLimit => 0x480C
  | .kGuestTrLimit => 0x480E
  | .kGuestGdtrLimit => 0x4810
  | .kGuestIdtrLimit => 0x4812
  | .kGuestEsArBytes => 0x4814
  | .kGuestCsArBytes => 0x4816
  | .kGuestSsArBytes => 0x4818
  | .kGuestDsArBytes => 0x481A
  | .kGuestFsArBytes => 0x481C
  | .kGuestGsArBytes => 0x481E
  | .kGuestLdtrArBytes => 0x4820
  | .kGuestTrArBytes => 0x4822
  | .kGuestSysenterCs => 0x482A
  | .kCr0ReadShadow => 0x6004
  | .kCr4ReadShadow => 0x6006
  | .kExitQualification => 0x6400
  | .kGuestCr0 => 0x6800
  | .kGuestCr3 => 0x6802
  | .kGuestCr4 => 0x6804
  | .kGuestEsBase => 0x6806
  | .kGuestCsBase => 0x6808
  | .kGuestSsBase => 0x680A
  | .kGuestDsBase => 0x680C
  | .kGuestFsBase => 0x680E
  | .kGuestGsBase => 0x6810
  | .kGuestLdtrBase => 0x6812
  | .kGuestTrBase => 0x6814
  | .kGuestGdtrBase => 0x6816
  | .kGuestIdtrBase => 0x6818
  | .kGuestDr7 => 0x681A
  | .kGuestRsp => 0x681C
  | .kGuestRip => 0x681E
  | .kGuestRflags => 0x6820
  | .kGuestPendingDbgExceptions => 0x6822
  | .kGuestSysenterEsp => 0x6824
  | .kGuestSysenterEip => 0x6826

/-- `UtilIsInBounds(vmcs_field, kIoBitmapA, kHostIa32PerfGlobalCtrlHigh)`:
whether the field lies in the 64-bit VMCS field encoding range
`[0x2000, 0x2C05]` (`kIoBitmapA` is `0x2000`,
`kHostIa32PerfGlobalCtrlHigh` is `0x2C05`). -/
def isIn64BitVmcsRange (f : VmcsField) : Bool :=
  0x2000 ≤ f.encoding && f.encoding ≤ 0x2C05

/-- Hardware-level operations performed by a handler, recorded in program
order.  Memory dereferences record the CR3 value live at the access. -/
inductive Effect where
  | vmRead (f : VmcsField)
  | vmWrite (f : VmcsField) (value : Nat)
  | rdmsrHw (index : Nat)
  | wrmsrHw (index : Nat) (value : Nat)
  | cpuidHw (functionId subFunctionId : Nat)
  | rdtscHw
  | rdtscpHw
  | xsetbvHw (index : Nat) (value : Nat)
  | readDrHw (index : Nat)
  | writeDrHw (index : Nat) (value : Nat)
  | writeCr2Hw (value : Nat)
  | writeCr3Hw (value : Nat)
  | memRead (cr3 : Nat) (address : Nat)
  | memWrite (cr3 : Nat) (address : Nat) (value : Nat)
  | ioInHw (port : Nat) (sizeOfAccess : Nat)
  | ioOutHw (port : Nat) (sizeOfAccess : Nat) (value : Nat)
  | invvpidIndividualAddress (tag : Nat) (address : Nat)
  | invvpidSingleContextExceptGlobal (tag : Nat)
  | invvpidAllContext
  | inveptGlobal
  | invdHw
  | loadPdptes (cr3 : Nat)
  | eptResolveViolation
  | eptLookupEntry (guestPhysicalAddress : Nat)
  | lgdtHw (limit base : Nat)
  | lidtHw (limit base : Nat)
  | readProcessDirBase
  | dbgBreak
  deriving DecidableEq, Repr

/-- The stop codes of `HYPERPLATFORM_COMMON_BUG_CHECK` reachable from this
translation unit. -/
inductive BugCheck where
  | kTripleFaultVmExit
  | kUnexpectedVmExit
  | kEptMisconfigVmExit
  | kUnspecified
  | kCriticalVmxInstructionFailure
  deriving DecidableEq, Repr

/-- The transient per-exit context (`GuestContext`): the owning view of the
trapped register file, the structured flags view, the exit instruction
pointer, the saved CR8 and IRQL, and the continuation verdict. -/
structure GuestContext where
  gpRegs : GpRegisters
  flagReg : FlagRegister
  ip : Nat
  cr8 : Nat
  irql : Nat
  vmContinue : Bool
  deriving DecidableEq, Repr

/-- Read-only oracles for values returned by real hardware and by external
collaborators during one exit. -/
structure HostOracle where
  /-- `UtilReadMsr64` / `UtilReadMsr` result per MSR index. -/
  msr : Nat → Nat
  /-- `__cpuidex` result registers `(eax, ebx, ecx, edx)`. -/
  cpuid : Nat → Nat → Nat × Nat × Nat × Nat
  /-- `__rdtsc` / `__rdtscp` counter value. -/
  tsc : Nat
  /-- `__rdtscp` auxiliary (processor id) value. -/
  tscAux : Nat
  /-- `__readdr` value per debug-register index. -/
  dr : Nat → Nat
  /-- value delivered by an `IN`-family instruction. -/
  ioIn : Nat
  /-- `_KPROCESS::DirectoryTableBase` of the current process. -/
  processDirBase : Nat
  /-- `processor_data->shared_data` address. -/
  sharedData : Nat
  /-- the `processor_data` address itself (published on termination). -/
  processorDataAddr : Nat

/-- The whole machine as this translation unit observes it: the transient
guest context, the VMCS, live host registers (CR3, CR8, IRQL), guest-visible
memory, the trap frame fields the dispatcher updates, the effect trace, and
the fatal (bug-check) marker. -/
structure Machine where
  guest : GuestContext
  vmcs : VmcsField → Nat
  cr3 : Nat
  cr8 : Nat
  irql : Nat
  mem : Nat → Nat
  trapFrameSp : Nat
  trapFrameIp : Nat
  processorNumber : Nat
  host : HostOracle
  trace : List Effect
  /-- every guest-memory dereference performed so far, as a pair of the CR3
  value live at the access and the accessed address. -/
  memLog : List (Nat × Nat)
  fatal : Option BugCheck

/-- Append one effect to the trace. -/
def logE (m : Machine) (e : Effect) : Machine :=
  { m with trace := m.trace ++ [e] }

/-- `UtilVmRead`: read a VMCS field (value) and record the read. -/
def vmReadL (m : Machine) (f : VmcsField) : Machine :=
  logE m (.vmRead f)

/-- `UtilVmWrite` / `UtilVmWrite64`: write a VMCS field and record the
write. -/
def vmWrite (m : Machine) (f : VmcsField) (v : Nat) : Machine :=
  { m with vmcs := fun g => if g = f then v else m.vmcs g,
           trace := m.trace ++ [.vmWrite f v] }

/-- Replace the trapped register file. -/
def setGpRegs (m : Machine) (r : GpRegisters) : Machine :=
  { m with guest := { m.guest with gpRegs := r } }

/-- Replace the structured flags view. -/
def setFlagReg (m : Machine) (f : FlagRegister) : Machine :=
  { m with guest := { m.guest with flagReg := f } }

/-- `HYPERPLATFORM_COMMON_BUG_CHECK`: record the non-returning fatal stop. -/
def bugCheck (m : Machine) (b : BugCheck) : Machine :=
  { m with fatal := some b }

/-- Dereference guest-visible memory at `a` (read): records the access in the
trace and in the memory log together with the live CR3, and returns the
stored value. -/
def memReadOp (m : Machine) (a : Nat) : Machine × Nat :=
  ({ m with trace := m.trace ++ [.memRead m.cr3 a],
            memLog := m.memLog ++ [(m.cr3, a)] }, m.mem a)

/-- Dereference guest-visible memory at `a` (write of `v`): records the
access in the trace and in the memory log together with the live CR3. -/
def memWriteOp (m : Machine) (a v : Nat) : Machine :=
  { m with mem := fun x => if x = a then v else m.mem x,
           trace := m.trace ++ [.memWrite m.cr3 a v],
           memLog := m.memLog ++ [(m.cr3, a)] }

/-- Run `f` unless a bug check has already been raised (code after a
non-returning `HYPERPLATFORM_COMMON_BUG_CHECK` call never executes). -/
def unlessFatal (m : Machine) (f : Machine → Machine) : Machine :=
  if m.fatal.isSome then m else f m

/-- `VmmpSelectRegister`, read direction: which trapped register the 4-bit
index denotes.  Indices above 15 cannot be produced by the 4-bit
qualification/instruction-information fields that feed this function. -/
def selectRegisterGet (index : Nat) (r : GpRegisters) : Nat :=
  match index with
  | 0 => r.ax
  | 1 => r.cx
  | 2 => r.dx
  | 3 => r.bx
  | 4 => r.sp
  | 5 => r.bp
  | 6 => r.si
  | 7 => r.di
  | 8 => r.r8
  | 9 => r.r9
  | 10 => r.r10
  | 11 => r.r11
  | 12 => r.r12
  | 13 => r.r13
  | 14 => r.r14
  | 15 => r.r15
  | _ => 0

/-- `VmmpSelectRegister`, write direction. -/
def selectRegisterSet (index : Nat) (r : GpRegisters) (v : Nat) : GpRegisters :=
  match index with
  | 0 => { r with ax := v }
  | 1 => { r with cx := v }
  | 2 => { r with dx := v }
  | 3 => { r with bx := v }
  | 4 => { r with sp := v }
  | 5 => { r with bp := v }
  | 6 => { r with si := v }
  | 7 => { r with di := v }
  | 8 => { r with r8 := v }
  | 9 => { r with r9 := v }
  | 10 => { r with r10 := v }
  | 11 => { r with r11 := v }
  | 12 => { r with r12 := v }
  | 13 => { r with r13 := v }
  | 14 => { r with r14 := v }
  | 15 => { r with r15 := v }
  | _ => r

/-- The interruption types used by this translation unit
(`InterruptionType`). -/
inductive InterruptionType where
  | kHardwareException
  | kSoftwareException
  deriving DecidableEq, Repr

/-- Numeric value of the interruption type (VM-entry interruption-information
bits 10:8). -/
def InterruptionType.val : InterruptionType → Nat
  | .kHardwareException => 3
  | .kSoftwareException => 6

/-- The interruption vectors used by this translation unit
(`InterruptionVector`). -/
inductive InterruptionVector where
  | kDebugException
  | kBreakpointException
  | kInvalidOpcodeException
  | kGeneralProtectionException
  | kPageFaultException
  deriving DecidableEq, Repr

/-- Numeric exception vector. -/
def InterruptionVector.val : InterruptionVector → Nat
  | .kDebugException => 1
  | .kBreakpointException => 3
  | .kInvalidOpcodeException => 6
  | .kGeneralProtectionException => 13
  | .kPageFaultException => 14

/-- The `VmEntryInterruptionInformationField` value written by
`VmmpInjectInterruption`: vector (bits 7:0), interruption type (bits 10:8),
deliver-error-code (bit 11), valid (bit 31). -/
def interruptionInfoValue (t : InterruptionType) (v : InterruptionVector)
    (deliverErrorCode : Bool) : Nat :=
  v.val + t.val * 2 ^ 8 + (if deliverErrorCode then 2 ^ 11 else 0) + 2 ^ 31

/-- `VmmpInjectInterruption`: write the entry-interruption descriptor (and the
error code when one is delivered) into the VMCS; guest registers are not
touched. -/
def VmmpInjectInterruption (m : Machine) (t : InterruptionType)
    (v : InterruptionVector) (deliverErrorCode : Bool) (errorCode : Nat) :
    Machine :=
  let m := vmWrite m .kVmEntryIntrInfoField (interruptionInfoValue t v deliverErrorCode)
  if deliverErrorCode then vmWrite m .kVmEntryExceptionErrorCode errorCode else m

/-- `VmmpAdjustGuestInstructionPointer`: write the guest RIP to the exit RIP
plus the reported instruction length; when the guest's trap flag was set at
exit, additionally inject a debug exception and copy the instruction length
into the entry-instruction-length field. -/
def VmmpAdjustGuestInstructionPointer (m : Machine) : Machine :=
  let len := m.vmcs .kVmExitInstructionLen
  let m := vmReadL m .kVmExitInstructionLen
  let m := vmWrite m .kGuestRip (add64 m.guest.ip len)
  if m.guest.flagReg.tf then
    let m := VmmpInjectInterruption m .kHardwareException .kDebugException false 0
    vmWrite m .kVmEntryInstructionLen len
  else m

/-- `VmmpGetGuestCpl`: the DPL field (bits 6:5) of the guest's SS
access-rights byte. -/
def VmmpGetGuestCpl (m : Machine) : Machine × Nat :=
  (vmReadL m .kGuestSsArBytes, m.vmcs .kGuestSsArBytes / 2 ^ 5 % 4)

/-- `VmmpGetKernelCr3` (x64 branch): the guest CR3, or the current process's
`DirectoryTableBase` when the lowest bit marks it as a user-mode CR3. -/
def VmmpGetKernelCr3 (m : Machine) : Machine × Nat :=
  let m := vmReadL m .kGuestCr3
  let guestCr3 := m.vmcs .kGuestCr3
  if guestCr3 % 2 = 1 then
    (logE m .readProcessDirBase, m.host.processDirBase)
  else
    (m, guestCr3)

/-- Modelled from the spec: the `CpuFeaturesEcx` bit-field layout lives in a
header that is not under `src/`; per the spec the CPUID leaf-1 handler
"clears the hypervisor present feature bit so guest software cannot detect
virtualization", and that feature bit is bit 31 of the leaf-1 ECX result
(the union's `not_used` field).  Clearing it on a 32-bit value is a bitwise
AND with `2^31 - 1`. -/
def clearHypervisorPresentBit (ecx : Nat) : Nat :=
  ecx &&& (2 ^ 31 - 1)

/-- `VmmpHandleCpuid`: execute the real CPUID, then spoof the leaf-0 vendor
identifier, clear the hypervisor-present bit for leaf 1, and pass every other
leaf through verbatim, before advancing the guest RIP. -/
def VmmpHandleCpuid (m : Machine) : Machine :=
  let functionId := low32 m.guest.gpRegs.ax
  let subFunctionId := low32 m.guest.gpRegs.cx
  let info := m.host.cpuid functionId subFunctionId
  let m := logE m (.cpuidHw functionId subFunctionId)
  if functionId = 0 then
    let m := setGpRegs m { m.guest.gpRegs with
      ax := 16, bx := 0x756E6547, cx := 0x6C65746E, dx := 0x49656E69 }
    VmmpAdjustGuestInstructionPointer m
  else
    let ecx := if functionId = 1 then clearHypervisorPresentBit (low32 info.2.2.1)
               else low32 info.2.2.1
    let m := setGpRegs m { m.guest.gpRegs with
      ax := low32 info.1, bx := low32 info.2.1, cx := ecx,
      dx := low32 info.2.2.2 }
    VmmpAdjustGuestInstructionPointer m

/-- `VmmpHandleRdtsc`: write the real timestamp counter into DX:AX and
advance. -/
def VmmpHandleRdtsc (m : Machine) : Machine :=
  let m := logE m .rdtscHw
  let m := setGpRegs m { m.guest.gpRegs with
    dx := high32 m.host.tsc, ax := low32 m.host.tsc }
  VmmpAdjustGuestInstructionPointer m

/-- `VmmpHandleRdtscp`: write the real timestamp counter into DX:AX and the
auxiliary value into CX, and advance. -/
def VmmpHandleRdtscp (m : Machine) : Machine :=
  let m := logE m .rdtscpHw
  let m := setGpRegs m { m.guest.gpRegs with
    dx := high32 m.host.tsc, ax := low32 m.host.tsc, cx := low32 m.host.tscAux }
  VmmpAdjustGuestInstructionPointer m

/-- `VmmpHandleXsetbv`: execute the real XSETBV with the guest-supplied mask
and value, and advance. -/
def VmmpHandleXsetbv (m : Machine) : Machine :=
  let value := low32 m.guest.gpRegs.ax + 2 ^ 32 * low32 m.guest.gpRegs.dx
  let m := logE m (.xsetbvHw (low32 m.guest.gpRegs.cx) value)
  VmmpAdjustGuestInstructionPointer m

/-- The MSR-index validity test of `VmmpHandleMsrAccess`: the two permitted
ranges `0..0x1FFF` and `0xC0000000..0xC0001FFF` (source variable
`is_vaild_msr`). -/
def isVaildMsr (cx : Nat) : Bool :=
  cx ≤ 0x1FFF || (0xC0000000 ≤ cx && cx ≤ 0xC0001FFF)

/-- The `Msr`-to-VMCS-field redirection table of `VmmpHandleMsrAccess`
(`transfer_to_vmcs` / `vmcs_field`): SYSENTER CS/ESP/EIP (0x174..0x176),
IA32_DEBUGCTL (0x1D9), IA32_GS_BASE (0xC0000101), IA32_FS_BASE (0xC0000100);
`none` corresponds to `transfer_to_vmcs == false`. -/
def msrVmcsField (msr : Nat) : Option VmcsField :=
  if msr = 0x174 then some .kGuestSysenterCs
  else if msr = 0x175 then some .kGuestSysenterEsp
  else if msr = 0x176 then some .kGuestSysenterEip
  else if msr = 0x1D9 then some .kGuestIa32Debugctl
  else if msr = 0xC0000101 then some .kGuestGsBase
  else if msr = 0xC0000100 then some .kGuestFsBase
  else none

/-- `VmmpHandleMsrAccess`: for a disallowed index (outside both permitted
ranges and not the tolerated diagnostic MSR `0x400000F0`), inject #GP with
error code `0x6A` and advance; otherwise service the access, redirected to a
VMCS guest-state field for the mapped MSRs and to real hardware for the rest.
The source additionally picks the 32-bit or 64-bit VMCS accessor via
`UtilIsInBounds(vmcs_field, kIoBitmapA, kHostIa32PerfGlobalCtrlHigh)` (see
`isIn64BitVmcsRange`); on the x64 build both accessors read/write the same
whole field, so the model does not branch on it. -/
def VmmpHandleMsrAccess (m : Machine) (readAccess : Bool) : Machine :=
  let cx := m.guest.gpRegs.cx
  if !isVaildMsr cx && cx ≠ 0x400000F0 then
    let m := VmmpInjectInterruption m .kHardwareException
      .kGeneralProtectionException true 0x6A
    VmmpAdjustGuestInstructionPointer m
  else
    let msr := low32 cx
    let m :=
      match msrVmcsField msr with
      | some f =>
        if readAccess then
          let m := vmReadL m f
          let v := m.vmcs f
          setGpRegs m { m.guest.gpRegs with ax := low32 v, dx := high32 v }
        else
          let v := low32 m.guest.gpRegs.ax + 2 ^ 32 * low32 m.guest.gpRegs.dx
          vmWrite m f v
      | none =>
        if readAccess then
          let m := logE m (.rdmsrHw msr)
          let v := m.host.msr msr
          setGpRegs m { m.guest.gpRegs with ax := low32 v, dx := high32 v }
        else
          let v := low32 m.guest.gpRegs.ax + 2 ^ 32 * low32 m.guest.gpRegs.dx
          logE m (.wrmsrHw msr v)
    VmmpAdjustGuestInstructionPointer m

/-- `VmmpHandleMsrReadAccess` (RDMSR). -/
def VmmpHandleMsrReadAccess (m : Machine) : Machine :=
  VmmpHandleMsrAccess m true

/-- `VmmpHandleMsrWriteAccess` (WRMSR). -/
def VmmpHandleMsrWriteAccess (m : Machine) : Machine :=
  VmmpHandleMsrAccess m false

/-- `VmmpHandleCrAccess`: MOV to/from CR0/CR3/CR4/CR8.  The exit
qualification is decoded per the architectural `MovCrQualification` layout:
control register (bits 3:0), access type (bits 5:4), MOV-source/target
general-purpose register (bits 11:8).  On the x64 build `UtilIsX86Pae()` is
false, so no PDPTE reload occurs. -/
def VmmpHandleCrAccess (m : Machine) : Machine :=
  let q := m.vmcs .kExitQualification
  let m := vmReadL m .kExitQualification
  let controlRegister := q % 16
  let accessType := q / 16 % 4
  let gpRegister := q / 256 % 16
  let registerValue := selectRegisterGet gpRegister m.guest.gpRegs
  match accessType with
  | 0 =>  -- kMoveToCr
    match controlRegister with
    | 0 =>
      let f0 := m.host.msr 0x486  -- kIa32VmxCr0Fixed0
      let m := logE m (.rdmsrHw 0x486)
      let f1 := m.host.msr 0x487  -- kIa32VmxCr0Fixed1
      let m := logE m (.rdmsrHw 0x487)
      let cr0 := registerValue &&& f1 ||| f0
      let m := vmWrite m .kGuestCr0 cr0
      let m := vmWrite m .kCr0ReadShadow cr0
      VmmpAdjustGuestInstructionPointer m
    | 3 =>
      let m := logE m (.invvpidSingleContextExceptGlobal
        ((m.processorNumber + 1) % 2 ^ 16))
      -- The MOV to CR3 does not modify the bit 63 of CR3 (source comment):
      -- the committed value is the source register ANDed with ~(1 << 63).
      let m := vmWrite m .kGuestCr3 (registerValue &&& (2 ^ 63 - 1))
      VmmpAdjustGuestInstructionPointer m
    | 4 =>
      let m := logE m .invvpidAllContext
      let f0 := m.host.msr 0x488  -- kIa32VmxCr4Fixed0
      let m := logE m (.rdmsrHw 0x488)
      let f1 := m.host.msr 0x489  -- kIa32VmxCr4Fixed1
      let m := logE m (.rdmsrHw 0x489)
      let cr4 := registerValue &&& f1 ||| f0
      let m := vmWrite m .kGuestCr4 cr4
      let m := vmWrite m .kCr4ReadShadow cr4
      VmmpAdjustGuestInstructionPointer m
    | 8 =>
      let m := { m with guest := { m.guest with cr8 := registerValue } }
      VmmpAdjustGuestInstructionPointer m
    | _ => bugCheck m .kUnspecified
  | 1 =>  -- kMoveFromCr
    match controlRegister with
    | 3 =>
      let m := vmReadL m .kGuestCr3
      let m := setGpRegs m
        (selectRegisterSet gpRegister m.guest.gpRegs (m.vmcs .kGuestCr3))
      VmmpAdjustGuestInstructionPointer m
    | 8 =>
      let m := setGpRegs m
        (selectRegisterSet gpRegister m.guest.gpRegs m.guest.cr8)
      VmmpAdjustGuestInstructionPointer m
    | _ => bugCheck m .kUnspecified
  | _ =>  -- kClts / kLmsw: unimplemented, DBG_BREAK and fall through
    VmmpAdjustGuestInstructionPointer (logE m .dbgBreak)

/-- `VmmpHandleInvalidateInternalCaches` (INVD). -/
def VmmpHandleInvalidateInternalCaches (m : Machine) : Machine :=
  VmmpAdjustGuestInstructionPointer (logE m .invdHw)

/-- `VmmpHandleInvalidateTlbEntry` (INVLPG): targeted invalidation of the
faulting linear address for the current processor's VPID tag. -/
def VmmpHandleInvalidateTlbEntry (m : Machine) : Machine :=
  let addr := m.vmcs .kExitQualification
  let m := vmReadL m .kExitQualification
  let m := logE m (.invvpidIndividualAddress ((m.processorNumber + 1) % 2 ^ 16) addr)
  VmmpAdjustGuestInstructionPointer m

/-- `VmmpHandleEptViolation`: forwarded verbatim to the external EPT-resolution
collaborator (`EptHandleEptViolation`); the handler itself touches no guest
state and in particular never advances the guest RIP. -/
def VmmpHandleEptViolation (m : Machine) : Machine :=
  logE m .eptResolveViolation

/-- `VmmpHandleEptMisconfig`: always fatal; looks up the offending EPT entry
and raises the bug check. -/
def VmmpHandleEptMisconfig (m : Machine) : Machine :=
  let fault := m.vmcs .kGuestPhysicalAddress
  let m := vmReadL m .kGuestPhysicalAddress
  let m := logE m (.eptLookupEntry fault)
  bugCheck m .kEptMisconfigVmExit

/-- `VmmpHandleVmx`: every VMX instruction other than VMCALL fails with carry
set and zero cleared ("error without status"), then advances. -/
def VmmpHandleVmx (m : Machine) : Machine :=
  let m := setFlagReg m { m.guest.flagReg with
    cf := true, pf := false, af := false, zf := false, sf := false,
    ofl := false }
  let m := vmWrite m .kGuestRflags m.guest.flagReg.all
  VmmpAdjustGuestInstructionPointer m

/-- `VmmpHandleTripleFault`: fatal. -/
def VmmpHandleTripleFault (m : Machine) : Machine :=
  bugCheck m .kTripleFaultVmExit

/-- `VmmpHandleUnexpectedExit`: fatal; reads the exit qualification as a
diagnostic parameter. -/
def VmmpHandleUnexpectedExit (m : Machine) : Machine :=
  bugCheck (vmReadL m .kExitQualification) .kUnexpectedVmExit

/-- `VmmpHandleMonitorTrap`: fatal. -/
def VmmpHandleMonitorTrap (m : Machine) : Machine :=
  bugCheck m .kUnexpectedVmExit

/-- `VmmpHandleException`: re-inject the intercepted #PF / #GP / #BP into the
guest; any other intercepted event is fatal.  The exit interruption
information is decoded per the architectural layout: vector (bits 7:0),
interruption type (bits 10:8). -/
def VmmpHandleException (m : Machine) : Machine :=
  let info := low32 (m.vmcs .kVmExitIntrInfo)
  let m := vmReadL m .kVmExitIntrInfo
  let itype := info / 2 ^ 8 % 8
  let vector := info % 2 ^ 8
  if itype = 3 then  -- kHardwareException
    if vector = 14 then  -- #PF
      let faultCode := low32 (m.vmcs .kVmExitIntrErrorCode)
      let m := vmReadL m .kVmExitIntrErrorCode
      let faultAddress := m.vmcs .kExitQualification
      let m := vmReadL m .kExitQualification
      let m := VmmpInjectInterruption m .kHardwareException .kPageFaultException
        true faultCode
      logE m (.writeCr2Hw faultAddress)
    else if vector = 13 then  -- #GP
      let errorCode := low32 (m.vmcs .kVmExitIntrErrorCode)
      let m := vmReadL m .kVmExitIntrErrorCode
      VmmpInjectInterruption m .kHardwareException .kGeneralProtectionException
        true errorCode
    else bugCheck m .kUnspecified
  else if itype = 6 then  -- kSoftwareException
    if vector = 3 then  -- #BP
      let m := VmmpInjectInterruption m .kSoftwareException
        .kBreakpointException false 0
      let len := m.vmcs .kVmExitInstructionLen
      let m := vmReadL m .kVmExitInstructionLen
      vmWrite m .kVmEntryInstructionLen len
    else bugCheck m .kUnspecified
  else bugCheck m .kUnspecified

/-- The reserved-bit enforcement applied to a MOV-to-DR6 value: bits 4:11
(`reserved1`, always one) are set, bit 12 (`reserved2`, always zero) is
cleared, and bits 17:31 (`reserved3`, always one) are set; bits 32:63 are
zero on this path because of the preceding high-bits #GP check. -/
def dr6WriteFix (v : Nat) : Nat :=
  (v ||| 0xFF0 ||| 0xFFFE0000) &&& (W64 - 1 - 2 ^ 12)

/-- The reserved-bit enforcement applied to a MOV-to-DR7 value: bits 10:12
(`reserved1`) are set, bits 14:15 (`reserved2`) and bits 32:63 (`reserved3`)
are cleared. -/
def dr7WriteFix (v : Nat) : Nat :=
  (v ||| 0x1C00) &&& 0xFFFF3FFF

/-- `VmmpHandleDrAccess`: MOV to/from DR0..DR7 with the native privilege
checks reproduced.  The exit qualification is decoded per the architectural
`MovDrQualification` layout: debug register (bits 2:0), direction (bit 4,
zero means MOV to DR), general-purpose register (bits 11:8). -/
def VmmpHandleDrAccess (m : Machine) : Machine :=
  let (m, cpl) := VmmpGetGuestCpl m
  if cpl ≠ 0 then
    VmmpInjectInterruption m .kHardwareException .kGeneralProtectionException
      true 0
  else
  let q := m.vmcs .kExitQualification
  let m := vmReadL m .kExitQualification
  let debuglRegister := q % 8
  let afterAlias : Machine × Option Nat :=
    if debuglRegister = 4 ∨ debuglRegister = 5 then
      let cr4 := m.vmcs .kGuestCr4
      let m := vmReadL m .kGuestCr4
      if cr4.testBit 3 then  -- CR4.DE
        (VmmpInjectInterruption m .kHardwareException
          .kInvalidOpcodeException false 0, none)
      else if debuglRegister = 4 then (m, some 6) else (m, some 7)
    else (m, some debuglRegister)
  let m := afterAlias.1
  match afterAlias.2 with
  | none => m
  | some debuglRegister =>
    let dr7 := m.vmcs .kGuestDr7
    let m := vmReadL m .kGuestDr7
    if dr7.testBit 13 then  -- DR7.GD
      let dr6 := m.host.dr 6
      let m := logE m (.readDrHw 6)
      -- clear DR6.B0..B3, set DR6.BD
      let dr6w := dr6 &&& (W64 - 1 - 0xF) ||| 2 ^ 13
      let m := logE m (.writeDrHw 6 dr6w)
      let m := VmmpInjectInterruption m .kHardwareException .kDebugException
        false 0
      -- clear DR7.GD in the VMCS
      vmWrite m .kGuestDr7 (dr7 &&& (W64 - 1 - 2 ^ 13))
    else
      let gpRegister := q / 256 % 16
      let direction := q / 16 % 2
      let registerValue := selectRegisterGet gpRegister m.guest.gpRegs
      if direction = 0 ∧ (debuglRegister = 6 ∨ debuglRegister = 7) ∧
          registerValue / 2 ^ 32 ≠ 0 then
        VmmpInjectInterruption m .kHardwareException
          .kGeneralProtectionException true 0
      else
        let m :=
          if direction = 0 then  -- kMoveToDr
            match debuglRegister with
            | 0 => logE m (.writeDrHw 0 registerValue)
            | 1 => logE m (.writeDrHw 1 registerValue)
            | 2 => logE m (.writeDrHw 2 registerValue)
            | 3 => logE m (.writeDrHw 3 registerValue)
            | 6 => logE m (.writeDrHw 6 (dr6WriteFix registerValue))
            | 7 => vmWrite m .kGuestDr7 (dr7WriteFix registerValue)
            | _ => m
          else  -- kMoveFromDr
            match debuglRegister with
            | 0 => setGpRegs (logE m (.readDrHw 0))
                     (selectRegisterSet gpRegister m.guest.gpRegs (m.host.dr 0))
            | 1 => setGpRegs (logE m (.readDrHw 1))
                     (selectRegisterSet gpRegister m.guest.gpRegs (m.host.dr 1))
            | 2 => setGpRegs (logE m (.readDrHw 2))
                     (selectRegisterSet gpRegister m.guest.gpRegs (m.host.dr 2))
            | 3 => setGpRegs (logE m (.readDrHw 3))
                     (selectRegisterSet gpRegister m.guest.gpRegs (m.host.dr 3))
            | 6 => setGpRegs (logE m (.readDrHw 6))
                     (selectRegisterSet gpRegister m.guest.gpRegs (m.host.dr 6))
            | 7 => setGpRegs (vmReadL m .kGuestDr7)
                     (selectRegisterSet gpRegister m.guest.gpRegs
                       (m.vmcs .kGuestDr7))
            | _ => m
        VmmpAdjustGuestInstructionPointer m

/-- Write the current live CR3 (`__writecr3`). -/
def writeCr3 (m : Machine) (v : Nat) : Machine :=
  { m with cr3 := v, trace := m.trace ++ [.writeCr3Hw v] }

/-- The target of an I/O or descriptor-table operand: either guest memory at
an address, or (a typed reinterpretation of) a trapped register. -/
inductive OperandTarget where
  | memTarget (address : Nat)
  | regTarget (index : Nat)
  deriving DecidableEq, Repr

/-- `VmmpIoWrapper`: perform the real port access inside a guest-CR3 window.
String forms touch guest memory at the supplied address; scalar forms
read/write the low `size_of_access` bytes of the trapped AX register.  An
unreachable `size_of_access` raises the fatal stop (and, the call never
returning, the window is not closed on that path). -/
def VmmpIoWrapper (m : Machine) (toMemory isString : Bool)
    (sizeOfAccess : Nat) (port : Nat) (address : OperandTarget)
    (count : Nat) : Machine :=
  let (m, guestCr3) := VmmpGetKernelCr3 m
  let vmmCr3 := m.cr3
  let m := writeCr3 m guestCr3
  let m :=
    if sizeOfAccess = 1 ∨ sizeOfAccess = 2 ∨ sizeOfAccess = 4 then
      if toMemory then
        if isString then  -- INS
          match address with
          | .memTarget a =>
            let m := logE m (.ioInHw port sizeOfAccess)
            memWriteOp m a m.host.ioIn
          | .regTarget _ => m
        else  -- IN: writes the low bytes of the trapped AX
          match address with
          | .regTarget _ =>
            let m := logE m (.ioInHw port sizeOfAccess)
            let ax := m.guest.gpRegs.ax
            let v := ax - ax % 2 ^ (8 * sizeOfAccess) +
              m.host.ioIn % 2 ^ (8 * sizeOfAccess)
            setGpRegs m { m.guest.gpRegs with ax := v }
          | .memTarget _ => m
      else
        if isString then  -- OUTS
          match address with
          | .memTarget a =>
            let (m, v) := memReadOp m a
            logE m (.ioOutHw port sizeOfAccess v)
          | .regTarget _ => m
        else  -- OUT
          match address with
          | .regTarget _ =>
            logE m (.ioOutHw port sizeOfAccess
              (m.guest.gpRegs.ax % 2 ^ (8 * sizeOfAccess)))
          | .memTarget _ => m
    else bugCheck m .kUnspecified
  unlessFatal m (fun m => writeCr3 m vmmCr3)

/-- Decode of `IoInstSizeOfAccess` (exit-qualification bits 2:0): the size in
bytes of the access; the encoding `2` is not produced by hardware and is not
matched by the source `switch`, leaving `size_of_access == 0`. -/
def ioSizeOfAccess (sizeField : Nat) : Nat :=
  match sizeField with
  | 0 => 1
  | 1 => 2
  | 3 => 4
  | _ => 0

/-- `VmmpHandleIoPort`: IN/OUT/INS/OUTS.  The exit qualification is decoded
per the architectural `IoInstQualification` layout: size of access (bits
2:0), direction (bit 3, one means IN), string form (bit 4), REP prefix
(bit 5), port number (bits 31:16). -/
def VmmpHandleIoPort (m : Machine) : Machine :=
  let q := m.vmcs .kExitQualification
  let m := vmReadL m .kExitQualification
  let isIn := q / 8 % 2 = 1
  let isString := q / 16 % 2 = 1
  let isRep := q / 32 % 2 = 1
  let port := q / 2 ^ 16 % 2 ^ 16
  let stringAddress := if isIn then m.guest.gpRegs.di else m.guest.gpRegs.si
  let count := low32 (if isRep then m.guest.gpRegs.cx else 1)
  let address : OperandTarget :=
    if isString then .memTarget stringAddress else .regTarget 0
  let sizeOfAccess := ioSizeOfAccess (q % 8)
  let m := VmmpIoWrapper m isIn isString sizeOfAccess port address count
  unlessFatal m (fun m =>
    let m :=
      if isString then
        let updateCount := if isRep then m.guest.gpRegs.cx else 1
        let updateSize := mask64 (updateCount * sizeOfAccess)
        let m :=
          if isIn then
            setGpRegs m { m.guest.gpRegs with di :=
              (if m.guest.flagReg.df then sub64 m.guest.gpRegs.di updateSize
               else add64 m.guest.gpRegs.di updateSize) }
          else
            setGpRegs m { m.guest.gpRegs with si :=
              (if m.guest.flagReg.df then sub64 m.guest.gpRegs.si updateSize
               else add64 m.guest.gpRegs.si updateSize) }
        if isRep then setGpRegs m { m.guest.gpRegs with cx := 0 } else m
      else m
    VmmpAdjustGuestInstructionPointer m)

/-- The 10-byte pseudo descriptor stored by 64-bit SGDT/SIDT: limit in the
low 16 bits, the full base above. -/
def pseudoDescriptor64 (limit base : Nat) : Nat :=
  limit % 2 ^ 16 + mask64 base * 2 ^ 16

/-- The 6-byte pseudo descriptor stored by 32-bit SGDT/SIDT: limit in the low
16 bits, the 32-bit-truncated base above. -/
def pseudoDescriptor32 (limit base : Nat) : Nat :=
  limit % 2 ^ 16 + low32 base * 2 ^ 16

/-- The operand-address computation shared by the GDTR/IDTR and LDTR/TR
emulators: segment base (decoded from instruction-information bits 17:15)
plus optional base register (bits 26:23, invalid bit 27) plus optional scaled
index register (bits 21:18, invalid bit 22, scale bits 1:0) plus the
displacement from the exit qualification, truncated to 32 bits when the
address size (bits 9:7) is 32-bit.  An out-of-range segment register only
triggers a debug break in the source and leaves the base zero. -/
def segmentBaseRead (m : Machine) (segmentRegister : Nat) : Machine × Nat :=
  match segmentRegister with
  | 0 => (vmReadL m .kGuestEsBase, m.vmcs .kGuestEsBase)
  | 1 => (vmReadL m .kGuestCsBase, m.vmcs .kGuestCsBase)
  | 2 => (vmReadL m .kGuestSsBase, m.vmcs .kGuestSsBase)
  | 3 => (vmReadL m .kGuestDsBase, m.vmcs .kGuestDsBase)
  | 4 => (vmReadL m .kGuestFsBase, m.vmcs .kGuestFsBase)
  | 5 => (vmReadL m .kGuestGsBase, m.vmcs .kGuestGsBase)
  | _ => (logE m .dbgBreak, 0)

def computeOperationAddress (m : Machine) (info displacement : Nat) :
    Machine × Nat :=
  let baseValue :=
    if info.testBit 27 then 0
    else selectRegisterGet (info / 2 ^ 23 % 16) m.guest.gpRegs
  let indexRaw :=
    if info.testBit 22 then 0
    else selectRegisterGet (info / 2 ^ 18 % 16) m.guest.gpRegs
  let indexValue :=
    if info.testBit 22 then 0
    else match info % 4 with
      | 1 => mask64 (indexRaw * 2)
      | 2 => mask64 (indexRaw * 4)
      | 3 => mask64 (indexRaw * 8)
      | _ => indexRaw
  let p := segmentBaseRead m (info / 2 ^ 15 % 8)
  let address := (p.2 + baseValue + indexValue + displacement) % W64
  let address := if info / 2 ^ 7 % 8 = 1 then low32 address else address
  (p.1, address)

/-- `VmmpHandleGdtrOrIdtrAccess`: LGDT/SGDT/LIDT/SIDT.  Computes the operand
address, switches to the guest's address space, stores the guest GDTR/IDTR
into guest memory (6- or 10-byte encoding depending on the guest code
segment's L bit) or loads it from there, restores the VMM's address space and
advances.  Instruction identity is instruction-information bits 29:28
(0 SGDT, 1 SIDT, 2 LGDT, 3 LIDT). -/
def VmmpHandleGdtrOrIdtrAccess (m : Machine) : Machine :=
  let info := low32 (m.vmcs .kVmxInstructionInfo)
  let m := vmReadL m .kVmxInstructionInfo
  let displacement := m.vmcs .kExitQualification
  let m := vmReadL m .kExitQualification
  let p := computeOperationAddress m info displacement
  let m := p.1
  let operationAddress := p.2
  let (m, guestCr3) := VmmpGetKernelCr3 m
  let vmmCr3 := m.cr3
  let m := writeCr3 m guestCr3
  let m :=
    match info / 2 ^ 28 % 4 with
    | 0 =>  -- kSgdt
      let gdtBase := m.vmcs .kGuestGdtrBase
      let m := vmReadL m .kGuestGdtrBase
      let gdtLimit := m.vmcs .kGuestGdtrLimit % 2 ^ 16
      let m := vmReadL m .kGuestGdtrLimit
      let ss := m.vmcs .kGuestCsSelector % 2 ^ 16
      let m := vmReadL m .kGuestCsSelector
      let descAddr := add64 gdtBase (mask64 (ss / 8 * 8))
      let (m, descriptor) := memReadOp m descAddr
      let v := if descriptor.testBit 53 then pseudoDescriptor64 gdtLimit gdtBase
               else pseudoDescriptor32 gdtLimit gdtBase
      memWriteOp m operationAddress v
    | 1 =>  -- kSidt
      let idtBase := m.vmcs .kGuestIdtrBase
      let m := vmReadL m .kGuestIdtrBase
      let idtLimit := m.vmcs .kGuestIdtrLimit % 2 ^ 16
      let m := vmReadL m .kGuestIdtrLimit
      let gdtBase := m.vmcs .kGuestGdtrBase
      let m := vmReadL m .kGuestGdtrBase
      let ss := m.vmcs .kGuestCsSelector % 2 ^ 16
      let m := vmReadL m .kGuestCsSelector
      let descAddr := add64 gdtBase (mask64 (ss / 8 * 8))
      let (m, descriptor) := memReadOp m descAddr
      let v := if descriptor.testBit 53 then pseudoDescriptor64 idtLimit idtBase
               else pseudoDescriptor32 idtLimit idtBase
      memWriteOp m operationAddress v
    | 2 =>  -- kLgdt
      let (m, pseudo) := memReadOp m operationAddress
      let m := vmWrite m .kGuestGdtrBase (mask64 (pseudo / 2 ^ 16))
      vmWrite m .kGuestGdtrLimit (pseudo % 2 ^ 16)
    | _ =>  -- kLidt
      let (m, pseudo) := memReadOp m operationAddress
      let m := vmWrite m .kGuestIdtrBase (mask64 (pseudo / 2 ^ 16))
      vmWrite m .kGuestIdtrLimit (pseudo % 2 ^ 16)
  let m := writeCr3 m vmmCr3
  VmmpAdjustGuestInstructionPointer m

/-- Read a 16-bit selector from an operand target (`*selector`): the low 16
bits of a trapped register, or of guest memory. -/
def readSelector (m : Machine) (t : OperandTarget) : Machine × Nat :=
  match t with
  | .regTarget i => (m, selectRegisterGet i m.guest.gpRegs % 2 ^ 16)
  | .memTarget a =>
    let (m, v) := memReadOp m a
    (m, v % 2 ^ 16)

/-- Write a 16-bit selector to an operand target (`*selector = v`): replaces
only the low 16 bits of a trapped register, or stores to guest memory. -/
def writeSelector (m : Machine) (t : OperandTarget) (v : Nat) : Machine :=
  match t with
  | .regTarget i =>
    let old := selectRegisterGet i m.guest.gpRegs
    setGpRegs m (selectRegisterSet i m.guest.gpRegs (old - old % 2 ^ 16 + v % 2 ^ 16))
  | .memTarget a => memWriteOp m a (v % 2 ^ 16)

/-- `VmmpHandleLdtrOrTrAccess`: LLDT/LTR/SLDT/STR.  The operand is a register
when instruction-information bit 10 is set (register index bits 6:3),
otherwise the computed memory address; the selector is stored or loaded
inside a guest-CR3 window, and LTR additionally sets the busy bit (bit 41) of
the selected descriptor in the guest's GDT.  Instruction identity is bits
29:28 (0 SLDT, 1 STR, 2 LLDT, 3 LTR). -/
def VmmpHandleLdtrOrTrAccess (m : Machine) : Machine :=
  let info := low32 (m.vmcs .kVmxInstructionInfo)
  let m := vmReadL m .kVmxInstructionInfo
  let displacement := m.vmcs .kExitQualification
  let m := vmReadL m .kExitQualification
  let (m, target) :=
    if info.testBit 10 then
      (m, OperandTarget.regTarget (info / 8 % 16))
    else
      let p := computeOperationAddress m info displacement
      (p.1, OperandTarget.memTarget p.2)
  let (m, guestCr3) := VmmpGetKernelCr3 m
  let vmmCr3 := m.cr3
  let m := writeCr3 m guestCr3
  let m :=
    match info / 2 ^ 28 % 4 with
    | 0 =>  -- kSldt
      let sel := m.vmcs .kGuestLdtrSelector % 2 ^ 16
      let m := vmReadL m .kGuestLdtrSelector
      writeSelector m target sel
    | 1 =>  -- kStr
      let sel := m.vmcs .kGuestTrSelector % 2 ^ 16
      let m := vmReadL m .kGuestTrSelector
      writeSelector m target sel
    | 2 =>  -- kLldt
      let (m, sel) := readSelector m target
      vmWrite m .kGuestLdtrSelector sel
    | _ =>  -- kLtr
      let (m, sel) := readSelector m target
      let m := vmWrite m .kGuestTrSelector sel
      let gdtBase := m.vmcs .kGuestGdtrBase
      let m := vmReadL m .kGuestGdtrBase
      let descAddr := add64 gdtBase (mask64 (sel / 8 * 8))
      let (m, descriptor) := memReadOp m descAddr
      let v := descriptor ||| 2 ^ 41  -- set the busy bit (type |= 2)
      memWriteOp m descAddr v
  let m := writeCr3 m vmmCr3
  VmmpAdjustGuestInstructionPointer m

/-- `VmmpIndicateSuccessfulVmcall`: clear CF/PF/AF/ZF/SF/OF, commit the flags
to the guest RFLAGS, and advance. -/
def VmmpIndicateSuccessfulVmcall (m : Machine) : Machine :=
  let m := setFlagReg m { m.guest.flagReg with
    cf := false, pf := false, af := false, zf := false, sf := false,
    ofl := false }
  let m := vmWrite m .kGuestRflags m.guest.flagReg.all
  VmmpAdjustGuestInstructionPointer m

/-- `VmmpIndicateUnsuccessfulVmcall`: inject #UD and copy the exit instruction
length into the entry-instruction-length field; the guest RIP is not
advanced here. -/
def VmmpIndicateUnsuccessfulVmcall (m : Machine) : Machine :=
  let m := VmmpInjectInterruption m .kHardwareException
    .kInvalidOpcodeException false 0
  let len := m.vmcs .kVmExitInstructionLen
  let m := vmReadL m .kVmExitInstructionLen
  vmWrite m .kVmEntryInstructionLen len

/-- `VmmpHandleVmCallTermination`: reload GDTR/IDTR from the VMCS, publish the
processor-data address through the context pointer, stash the return
address / stack pointer / success flags in CX/DX/AX, and request
termination. -/
def VmmpHandleVmCallTermination (m : Machine) (context : Nat) : Machine :=
  let gdtLimit := m.vmcs .kGuestGdtrLimit
  let m := vmReadL m .kGuestGdtrLimit
  let gdtBase := m.vmcs .kGuestGdtrBase
  let m := vmReadL m .kGuestGdtrBase
  let idtLimit := m.vmcs .kGuestIdtrLimit
  let m := vmReadL m .kGuestIdtrLimit
  let idtBase := m.vmcs .kGuestIdtrBase
  let m := vmReadL m .kGuestIdtrBase
  let m := logE m (.lgdtHw (gdtLimit % 2 ^ 16) gdtBase)
  let m := logE m (.lidtHw (idtLimit % 2 ^ 16) idtBase)
  let m := memWriteOp m context m.host.processorDataAddr
  let len := m.vmcs .kVmExitInstructionLen
  let m := vmReadL m .kVmExitInstructionLen
  let returnAddress := add64 m.guest.ip len
  let m := setFlagReg m { m.guest.flagReg with
    cf := false, pf := false, af := false, zf := false, sf := false,
    ofl := false }
  let m := setGpRegs m { m.guest.gpRegs with
    cx := returnAddress, dx := m.guest.gpRegs.sp, ax := m.guest.flagReg.all }
  { m with guest := { m.guest with vmContinue := false } }

/-- Modelled from the spec: the `HypercallNumber` enumeration is declared in a
header that is not under `src/`.  Per the spec the hypercall protocol carries
"a 32-bit hypercall number" with three recognized hypercalls — a termination
request, a diagnostic ping, and a shared-data query — and
`kMinimumHypercallNumber`/`kMaximumHypercallNumber` bound exactly that set,
so the numbers are 0 (`kTerminateVmm`), 1 (`kPingVmm`) and
2 (`kGetSharedProcessorData`). -/
def kMaximumHypercallNumber : Nat := 2

/-- `VmmpHandleVmCall`: the tagged hypercall protocol.  CX carries the 32-bit
hypercall number, DX the context pointer.  An out-of-range number reaches
`VmmpIndicateUnsuccessfulVmcall` (the source does not return there, but no
`switch` case matches afterwards). -/
def VmmpHandleVmCall (m : Machine) : Machine :=
  let hypercallNumber := low32 m.guest.gpRegs.cx
  let context := m.guest.gpRegs.dx
  let m :=
    if ¬(hypercallNumber ≤ kMaximumHypercallNumber) then
      VmmpIndicateUnsuccessfulVmcall m
    else m
  match hypercallNumber with
  | 0 =>  -- kTerminateVmm, allowed only from CPL 0
    let (m, cpl) := VmmpGetGuestCpl m
    if cpl = 0 then VmmpHandleVmCallTermination m context
    else VmmpIndicateUnsuccessfulVmcall m
  | 1 =>  -- kPingVmm
    VmmpIndicateSuccessfulVmcall m
  | 2 =>  -- kGetSharedProcessorData
    let m := memWriteOp m context m.host.sharedData
    VmmpIndicateSuccessfulVmcall m
  | _ => m

/-- `VmmpHandleVmExit`: read the exit reason and route to the matching
emulator.  VM-exit recording (`kVmmpEnableRecordVmExit`) is compiled out
(`false`).  The reason values are the architectural basic exit reasons
carried by the repository's `VmxExitReason` enumeration. -/
def VmmpHandleVmExit (m : Machine) : Machine :=
  let reason := low32 (m.vmcs .kVmExitReason) % 2 ^ 16
  let m := vmReadL m .kVmExitReason
  match reason with
  | 0 => VmmpHandleException m
  | 2 => VmmpHandleTripleFault m
  | 10 => VmmpHandleCpuid m
  | 13 => VmmpHandleInvalidateInternalCaches m
  | 14 => VmmpHandleInvalidateTlbEntry m
  | 16 => VmmpHandleRdtsc m
  | 18 => VmmpHandleVmCall m
  | 19 => VmmpHandleVmx m
  | 20 => VmmpHandleVmx m
  | 21 => VmmpHandleVmx m
  | 22 => VmmpHandleVmx m
  | 23 => VmmpHandleVmx m
  | 24 => VmmpHandleVmx m
  | 25 => VmmpHandleVmx m
  | 26 => VmmpHandleVmx m
  | 27 => VmmpHandleVmx m
  | 28 => VmmpHandleCrAccess m
  | 29 => VmmpHandleDrAccess m
  | 30 => VmmpHandleIoPort m
  | 31 => VmmpHandleMsrReadAccess m
  | 32 => VmmpHandleMsrWriteAccess m
  | 37 => VmmpHandleMonitorTrap m
  | 46 => VmmpHandleGdtrOrIdtrAccess m
  | 47 => VmmpHandleLdtrOrTrAccess m
  | 48 => VmmpHandleEptViolation m
  | 49 => VmmpHandleEptMisconfig m
  | 50 => VmmpHandleVmx m
  | 51 => VmmpHandleRdtscp m
  | 53 => VmmpHandleVmx m
  | 55 => VmmpHandleXsetbv m
  | _ => VmmpHandleUnexpectedExit m

/-- The entry phase of `VmmVmExitHandler`: save the entry IRQL and CR8, raise
the IRQL to DPC level (2) when below it, assemble the `GuestContext` from the
trapped frame and live VMCS reads (flags, RIP, RSP), and update the trap
frame for debugger stack traces. -/
def dispatchEntry (m : Machine) : Machine :=
  let guestIrql := m.irql
  let guestCr8 := m.cr8
  let m := if guestIrql < 2 then { m with irql := 2 } else m
  let m := vmReadL m .kGuestRflags
  let flags := decodeFlags (m.vmcs .kGuestRflags)
  let m := vmReadL m .kGuestRip
  let ip := m.vmcs .kGuestRip
  let m := { m with guest :=
    { gpRegs := m.guest.gpRegs, flagReg := flags, ip := ip, cr8 := guestCr8,
      irql := guestIrql, vmContinue := true } }
  let m := vmReadL m .kGuestRsp
  let m := setGpRegs m { m.guest.gpRegs with sp := m.vmcs .kGuestRsp }
  { m with trapFrameSp := m.guest.gpRegs.sp, trapFrameIp := m.guest.ip }

/-- `VmmVmExitHandler`: the dispatcher.  Performs `dispatchEntry`, dispatches
to the emulator, performs the global invalidations when termination was
requested, lowers the IRQL back to the saved value, writes the (possibly
handler-updated) CR8, and returns the continuation verdict.  The steps that
in the C++ follow a non-returning bug check are guarded by `unlessFatal`. -/
def VmmVmExitHandler (m : Machine) : Machine × Bool :=
  let m := VmmpHandleVmExit (dispatchEntry m)
  let m := unlessFatal m (fun m =>
    if ¬m.guest.vmContinue then logE (logE m .inveptGlobal) .invvpidAllContext
    else m)
  let m := unlessFatal m (fun m =>
    if m.guest.irql < 2 then { m with irql := m.guest.irql } else m)
  let m := unlessFatal m (fun m => { m with cr8 := m.guest.cr8 })
  (m, m.guest.vmContinue)

/-! ## Projection lemmas for the primitive state operations -/

@[simp]
theorem logE_guest (m : Machine) (e : Effect) : (logE m e).guest = m.guest := rfl

@[simp]
theorem logE_vmcs (m : Machine) (e : Effect) : (logE m e).vmcs = m.vmcs := rfl

@[simp]
theorem logE_cr3 (m : Machine) (e : Effect) : (logE m e).cr3 = m.cr3 := rfl

@[simp]
theorem logE_cr8 (m : Machine) (e : Effect) : (logE m e).cr8 = m.cr8 := rfl

@[simp]
theorem logE_irql (m : Machine) (e : Effect) : (logE m e).irql = m.irql := rfl

@[simp]
theorem logE_mem (m : Machine) (e : Effect) : (logE m e).mem = m.mem := rfl

@[simp]
theorem logE_host (m : Machine) (e : Effect) : (logE m e).host = m.host := rfl

@[simp]
theorem logE_fatal (m : Machine) (e : Effect) : (logE m e).fatal = m.fatal := rfl

@[simp]
theorem logE_processorNumber (m : Machine) (e : Effect) :
    (logE m e).processorNumber = m.processorNumber := rfl

@[simp]
theorem logE_trace (m : Machine) (e : Effect) :
    (logE m e).trace = m.trace ++ [e] := rfl

@[simp]
theorem vmReadL_guest (m : Machine) (f : VmcsField) :
    (vmReadL m f).guest = m.guest := rfl

@[simp]
theorem vmReadL_vmcs (m : Machine) (f : VmcsField) :
    (vmReadL m f).vmcs = m.vmcs := rfl

@[simp]
theorem vmReadL_cr3 (m : Machine) (f : VmcsField) :
    (vmReadL m f).cr3 = m.cr3 := rfl

@[simp]
theorem vmReadL_cr8 (m : Machine) (f : VmcsField) :
    (vmReadL m f).cr8 = m.cr8 := rfl

@[simp]
theorem vmReadL_irql (m : Machine) (f : VmcsField) :
    (vmReadL m f).irql = m.irql := rfl

@[simp]
theorem vmReadL_mem (m : Machine) (f : VmcsField) :
    (vmReadL m f).mem = m.mem := rfl

@[simp]
theorem vmReadL_host (m : Machine) (f : VmcsField) :
    (vmReadL m f).host = m.host := rfl

@[simp]
theorem vmReadL_fatal (m : Machine) (f : VmcsField) :
    (vmReadL m f).fatal = m.fatal := rfl

@[simp]
theorem vmReadL_processorNumber (m : Machine) (f : VmcsField) :
    (vmReadL m f).processorNumber = m.processorNumber := rfl

@[simp]
theorem vmReadL_trace (m : Machine) (f : VmcsField) :
    (vmReadL m f).trace = m.trace ++ [.vmRead f] := rfl

@[simp]
theorem vmWrite_guest (m : Machine) (f : VmcsField) (v : Nat) :
    (vmWrite m f v).guest = m.guest := rfl

@[simp]
theorem vmWrite_cr3 (m : Machine) (f : VmcsField) (v : Nat) :
    (vmWrite m f v).cr3 = m.cr3 := rfl

@[simp]
theorem vmWrite_cr8 (m : Machine) (f : VmcsField) (v : Nat) :
    (vmWrite m f v).cr8 = m.cr8 := rfl

@[simp]
theorem vmWrite_irql (m : Machine) (f : VmcsField) (v : Nat) :
    (vmWrite m f v).irql = m.irql := rfl

@[simp]
theorem vmWrite_mem (m : Machine) (f : VmcsField) (v : Nat) :
    (vmWrite m f v).mem = m.mem := rfl

@[simp]
theorem vmWrite_host (m : Machine) (f : VmcsField) (v : Nat) :
    (vmWrite m f v).host = m.host := rfl

@[simp]
theorem vmWrite_fatal (m : Machine) (f : VmcsField) (v : Nat) :
    (vmWrite m f v).fatal = m.fatal := rfl

@[simp]
theorem vmWrite_processorNumber (m : Machine) (f : VmcsField) (v : Nat) :
    (vmWrite m f v).processorNumber = m.processorNumber := rfl

@[simp]
theorem vmWrite_trace (m : Machine) (f : VmcsField) (v : Nat) :
    (vmWrite m f v).trace = m.trace ++ [.vmWrite f v] := rfl

@[simp]
theorem vmWrite_vmcs_apply (m : Machine) (f g : VmcsField) (v : Nat) :
    (vmWrite m f v).vmcs g = if g = f then v else m.vmcs g := rfl

@[simp]
theorem setGpRegs_gpRegs (m : Machine) (r : GpRegisters) :
    (setGpRegs m r).guest.gpRegs = r := rfl

@[simp]
theorem setGpRegs_flagReg (m : Machine) (r : GpRegisters) :
    (setGpRegs m r).guest.flagReg = m.guest.flagReg := rfl

@[simp]
theorem setGpRegs_ip (m : Machine) (r : GpRegisters) :
    (setGpRegs m r).guest.ip = m.guest.ip := rfl

@[simp]
theorem setGpRegs_guest_cr8 (m : Machine) (r : GpRegisters) :
    (setGpRegs m r).guest.cr8 = m.guest.cr8 := rfl

@[simp]
theorem setGpRegs_guest_irql (m : Machine) (r : GpRegisters) :
    (setGpRegs m r).guest.irql = m.guest.irql := rfl

@[simp]
theorem setGpRegs_vmContinue (m : Machine) (r : GpRegisters) :
    (setGpRegs m r).guest.vmContinue = m.guest.vmContinue := rfl

@[simp]
theorem setGpRegs_vmcs (m : Machine) (r : GpRegisters) :
    (setGpRegs m r).vmcs = m.vmcs := rfl

@[simp]
theorem setGpRegs_cr3 (m : Machine) (r : GpRegisters) :
    (setGpRegs m r).cr3 = m.cr3 := rfl

@[simp]
theorem setGpRegs_cr8 (m : Machine) (r : GpRegisters) :
    (setGpRegs m r).cr8 = m.cr8 := rfl

@[simp]
theorem setGpRegs_irql (m : Machine) (r : GpRegisters) :
    (setGpRegs m r).irql = m.irql := rfl

@[simp]
theorem setGpRegs_mem (m : Machine) (r : GpRegisters) :
    (setGpRegs m r).mem = m.mem := rfl

@[simp]
theorem setGpRegs_host (m : Machine) (r : GpRegisters) :
    (setGpRegs m r).host = m.host := rfl

@[simp]
theorem setGpRegs_fatal (m : Machine) (r : GpRegisters) :
    (setGpRegs m r).fatal = m.fatal := rfl

@[simp]
theorem setGpRegs_processorNumber (m : Machine) (r : GpRegisters) :
    (setGpRegs m r).processorNumber = m.processorNumber := rfl

@[simp]
theorem setGpRegs_trace (m : Machine) (r : GpRegisters) :
    (setGpRegs m r).trace = m.trace := rfl

@[simp]
theorem setFlagReg_flagReg (m : Machine) (f : FlagRegister) :
    (setFlagReg m f).guest.flagReg = f := rfl

@[simp]
theorem setFlagReg_gpRegs (m : Machine) (f : FlagRegister) :
    (setFlagReg m f).guest.gpRegs = m.guest.gpRegs := rfl

@[simp]
theorem setFlagReg_ip (m : Machine) (f : FlagRegister) :
    (setFlagReg m f).guest.ip = m.guest.ip := rfl

@[simp]
theorem setFlagReg_guest_cr8 (m : Machine) (f : FlagRegister) :
    (setFlagReg m f).guest.cr8 = m.guest.cr8 := rfl

@[simp]
theorem setFlagReg_guest_irql (m : Machine) (f : FlagRegister) :
    (setFlagReg m f).guest.irql = m.guest.irql := rfl

@[simp]
theorem setFlagReg_vmContinue (m : Machine) (f : FlagRegister) :
    (setFlagReg m f).guest.vmContinue = m.guest.vmContinue := rfl

@[simp]
theorem setFlagReg_vmcs (m : Machine) (f : FlagRegister) :
    (setFlagReg m f).vmcs = m.vmcs := rfl

@[simp]
theorem setFlagReg_cr3 (m : Machine) (f : FlagRegister) :
    (setFlagReg m f).cr3 = m.cr3 := rfl

@[simp]
theorem setFlagReg_cr8 (m : Machine) (f : FlagRegister) :
    (setFlagReg m f).cr8 = m.cr8 := rfl

@[simp]
theorem setFlagReg_irql (m : Machine) (f : FlagRegister) :
    (setFlagReg m f).irql = m.irql := rfl

@[simp]
theorem setFlagReg_mem (m : Machine) (f : FlagRegister) :
    (setFlagReg m f).mem = m.mem := rfl

@[simp]
theorem setFlagReg_host (m : Machine) (f : FlagRegister) :
    (setFlagReg m f).host = m.host := rfl

@[simp]
theorem setFlagReg_fatal (m : Machine) (f : FlagRegister) :
    (setFlagReg m f).fatal = m.fatal := rfl

@[simp]
theorem setFlagReg_processorNumber (m : Machine) (f : FlagRegister) :
    (setFlagReg m f).processorNumber = m.processorNumber := rfl

@[simp]
theorem setFlagReg_trace (m : Machine) (f : FlagRegister) :
    (setFlagReg m f).trace = m.trace := rfl

@[simp]
theorem writeCr3_cr3 (m : Machine) (v : Nat) : (writeCr3 m v).cr3 = v := rfl

@[simp]
theorem writeCr3_guest (m : Machine) (v : Nat) :
    (writeCr3 m v).guest = m.guest := rfl

@[simp]
theorem writeCr3_vmcs (m : Machine) (v : Nat) :
    (writeCr3 m v).vmcs = m.vmcs := rfl

@[simp]
theorem writeCr3_cr8 (m : Machine) (v : Nat) : (writeCr3 m v).cr8 = m.cr8 := rfl

@[simp]
theorem writeCr3_irql (m : Machine) (v : Nat) :
    (writeCr3 m v).irql = m.irql := rfl

@[simp]
theorem writeCr3_mem (m : Machine) (v : Nat) : (writeCr3 m v).mem = m.mem := rfl

@[simp]
theorem writeCr3_host (m : Machine) (v : Nat) :
    (writeCr3 m v).host = m.host := rfl

@[simp]
theorem writeCr3_fatal (m : Machine) (v : Nat) :
    (writeCr3 m v).fatal = m.fatal := rfl

@[simp]
theorem writeCr3_processorNumber (m : Machine) (v : Nat) :
    (writeCr3 m v).processorNumber = m.processorNumber := rfl

@[simp]
theorem writeCr3_trace (m : Machine) (v : Nat) :
    (writeCr3 m v).trace = m.trace ++ [.writeCr3Hw v] := rfl

@[simp]
theorem bugCheck_fatal (m : Machine) (b : BugCheck) :
    (bugCheck m b).fatal = some b := rfl

@[simp]
theorem bugCheck_guest (m : Machine) (b : BugCheck) :
    (bugCheck m b).guest = m.guest := rfl

@[simp]
theorem bugCheck_vmcs (m : Machine) (b : BugCheck) :
    (bugCheck m b).vmcs = m.vmcs := rfl

@[simp]
theorem bugCheck_cr3 (m : Machine) (b : BugCheck) :
    (bugCheck m b).cr3 = m.cr3 := rfl

@[simp]
theorem bugCheck_cr8 (m : Machine) (b : BugCheck) :
    (bugCheck m b).cr8 = m.cr8 := rfl

@[simp]
theorem bugCheck_irql (m : Machine) (b : BugCheck) :
    (bugCheck m b).irql = m.irql := rfl

@[simp]
theorem bugCheck_mem (m : Machine) (b : BugCheck) :
    (bugCheck m b).mem = m.mem := rfl

@[simp]
theorem bugCheck_trace (m : Machine) (b : BugCheck) :
    (bugCheck m b).trace = m.trace := rfl

@[simp]
theorem unlessFatal_none (m : Machine) (f : Machine → Machine)
    (h : m.fatal = none) : unlessFatal m f = f m := by
  simp [unlessFatal, h]

@[simp]
theorem unlessFatal_some (m : Machine) (f : Machine → Machine) (b : BugCheck)
    (h : m.fatal = some b) : unlessFatal m f = m := by
  simp [unlessFatal, h]

@[simp]
theorem logE_memLog (m : Machine) (e : Effect) :
    (logE m e).memLog = m.memLog := rfl

@[simp]
theorem vmReadL_memLog (m : Machine) (f : VmcsField) :
    (vmReadL m f).memLog = m.memLog := rfl

@[simp]
theorem vmWrite_memLog (m : Machine) (f : VmcsField) (v : Nat) :
    (vmWrite m f v).memLog = m.memLog := rfl

@[simp]
theorem setGpRegs_memLog (m : Machine) (r : GpRegisters) :
    (setGpRegs m r).memLog = m.memLog := rfl

@[simp]
theorem setFlagReg_memLog (m : Machine) (f : FlagRegister) :
    (setFlagReg m f).memLog = m.memLog := rfl

@[simp]
theorem writeCr3_memLog (m : Machine) (v : Nat) :
    (writeCr3 m v).memLog = m.memLog := rfl

@[simp]
theorem bugCheck_memLog (m : Machine) (b : BugCheck) :
    (bugCheck m b).memLog = m.memLog := rfl

@[simp]
theorem memReadOp_fst_memLog (m : Machine) (a : Nat) :
    (memReadOp m a).1.memLog = m.memLog ++ [(m.cr3, a)] := rfl

@[simp]
theorem memReadOp_fst_guest (m : Machine) (a : Nat) :
    (memReadOp m a).1.guest = m.guest := rfl

@[simp]
theorem memReadOp_fst_vmcs (m : Machine) (a : Nat) :
    (memReadOp m a).1.vmcs = m.vmcs := rfl

@[simp]
theorem memReadOp_fst_cr3 (m : Machine) (a : Nat) :
    (memReadOp m a).1.cr3 = m.cr3 := rfl

@[simp]
theorem memReadOp_fst_cr8 (m : Machine) (a : Nat) :
    (memReadOp m a).1.cr8 = m.cr8 := rfl

@[simp]
theorem memReadOp_fst_irql (m : Machine) (a : Nat) :
    (memReadOp m a).1.irql = m.irql := rfl

@[simp]
theorem memReadOp_fst_mem (m : Machine) (a : Nat) :
    (memReadOp m a).1.mem = m.mem := rfl

@[simp]
theorem memReadOp_fst_host (m : Machine) (a : Nat) :
    (memReadOp m a).1.host = m.host := rfl

@[simp]
theorem memReadOp_fst_fatal (m : Machine) (a : Nat) :
    (memReadOp m a).1.fatal = m.fatal := rfl

@[simp]
theorem memReadOp_snd (m : Machine) (a : Nat) :
    (memReadOp m a).2 = m.mem a := rfl

@[simp]
theorem memWriteOp_memLog (m : Machine) (a v : Nat) :
    (memWriteOp m a v).memLog = m.memLog ++ [(m.cr3, a)] := rfl

@[simp]
theorem memWriteOp_guest (m : Machine) (a v : Nat) :
    (memWriteOp m a v).guest = m.guest := rfl

@[simp]
theorem memWriteOp_vmcs (m : Machine) (a v : Nat) :
    (memWriteOp m a v).vmcs = m.vmcs := rfl

@[simp]
theorem memWriteOp_cr3 (m : Machine) (a v : Nat) :
    (memWriteOp m a v).cr3 = m.cr3 := rfl

@[simp]
theorem memWriteOp_cr8 (m : Machine) (a v : Nat) :
    (memWriteOp m a v).cr8 = m.cr8 := rfl

@[simp]
theorem memWriteOp_irql (m : Machine) (a v : Nat) :
    (memWriteOp m a v).irql = m.irql := rfl

@[simp]
theorem memWriteOp_host (m : Machine) (a v : Nat) :
    (memWriteOp m a v).host = m.host := rfl

@[simp]
theorem memWriteOp_fatal (m : Machine) (a v : Nat) :
    (memWriteOp m a v).fatal = m.fatal := rfl

/-! ## Derived facts about event injection and instruction-pointer
advancement -/

@[simp]
theorem inject_guest (m : Machine) (t : InterruptionType)
    (v : InterruptionVector) (d : Bool) (e : Nat) :
    (VmmpInjectInterruption m t v d e).guest = m.guest := by
  unfold VmmpInjectInterruption
  split <;> rfl

@[simp]
theorem inject_cr3 (m : Machine) (t : InterruptionType)
    (v : InterruptionVector) (d : Bool) (e : Nat) :
    (VmmpInjectInterruption m t v d e).cr3 = m.cr3 := by
  unfold VmmpInjectInterruption
  split <;> rfl

@[simp]
theorem inject_cr8 (m : Machine) (t : InterruptionType)
    (v : InterruptionVector) (d : Bool) (e : Nat) :
    (VmmpInjectInterruption m t v d e).cr8 = m.cr8 := by
  unfold VmmpInjectInterruption
  split <;> rfl

@[simp]
theorem inject_irql (m : Machine) (t : InterruptionType)
    (v : InterruptionVector) (d : Bool) (e : Nat) :
    (VmmpInjectInterruption m t v d e).irql = m.irql := by
  unfold VmmpInjectInterruption
  split <;> rfl

@[simp]
theorem inject_mem (m : Machine) (t : InterruptionType)
    (v : InterruptionVector) (d : Bool) (e : Nat) :
    (VmmpInjectInterruption m t v d e).mem = m.mem := by
  unfold VmmpInjectInterruption
  split <;> rfl

@[simp]
theorem inject_host (m : Machine) (t : InterruptionType)
    (v : InterruptionVector) (d : Bool) (e : Nat) :
    (VmmpInjectInterruption m t v d e).host = m.host := by
  unfold VmmpInjectInterruption
  split <;> rfl

@[simp]
theorem inject_fatal (m : Machine) (t : InterruptionType)
    (v : InterruptionVector) (d : Bool) (e : Nat) :
    (VmmpInjectInterruption m t v d e).fatal = m.fatal := by
  unfold VmmpInjectInterruption
  split <;> rfl

@[simp]
theorem inject_processorNumber (m : Machine) (t : InterruptionType)
    (v : InterruptionVector) (d : Bool) (e : Nat) :
    (VmmpInjectInterruption m t v d e).processorNumber = m.processorNumber := by
  unfold VmmpInjectInterruption
  split <;> rfl

@[simp]
theorem adjust_guest (m : Machine) :
    (VmmpAdjustGuestInstructionPointer m).guest = m.guest := by
  unfold VmmpAdjustGuestInstructionPointer
  by_cases h : m.guest.flagReg.tf = true <;> simp [h]

@[simp]
theorem adjust_cr3 (m : Machine) :
    (VmmpAdjustGuestInstructionPointer m).cr3 = m.cr3 := by
  unfold VmmpAdjustGuestInstructionPointer
  by_cases h : m.guest.flagReg.tf = true <;> simp [h]

@[simp]
theorem adjust_cr8 (m : Machine) :
    (VmmpAdjustGuestInstructionPointer m).cr8 = m.cr8 := by
  unfold VmmpAdjustGuestInstructionPointer
  by_cases h : m.guest.flagReg.tf = true <;> simp [h]

@[simp]
theorem adjust_irql (m : Machine) :
    (VmmpAdjustGuestInstructionPointer m).irql = m.irql := by
  unfold VmmpAdjustGuestInstructionPointer
  by_cases h : m.guest.flagReg.tf = true <;> simp [h]

@[simp]
theorem adjust_mem (m : Machine) :
    (VmmpAdjustGuestInstructionPointer m).mem = m.mem := by
  unfold VmmpAdjustGuestInstructionPointer
  by_cases h : m.guest.flagReg.tf = true <;> simp [h]

@[simp]
theorem adjust_host (m : Machine) :
    (VmmpAdjustGuestInstructionPointer m).host = m.host := by
  unfold VmmpAdjustGuestInstructionPointer
  by_cases h : m.guest.flagReg.tf = true <;> simp [h]

@[simp]
theorem adjust_fatal (m : Machine) :
    (VmmpAdjustGuestInstructionPointer m).fatal = m.fatal := by
  unfold VmmpAdjustGuestInstructionPointer
  by_cases h : m.guest.flagReg.tf = true <;> simp [h]

@[simp]
theorem adjust_processorNumber (m : Machine) :
    (VmmpAdjustGuestInstructionPointer m).processorNumber =
      m.processorNumber := by
  unfold VmmpAdjustGuestInstructionPointer
  by_cases h : m.guest.flagReg.tf = true <;> simp [h]

@[simp]
theorem inject_memLog (m : Machine) (t : InterruptionType)
    (v : InterruptionVector) (d : Bool) (e : Nat) :
    (VmmpInjectInterruption m t v d e).memLog = m.memLog := by
  unfold VmmpInjectInterruption
  split <;> rfl

@[simp]
theorem adjust_memLog (m : Machine) :
    (VmmpAdjustGuestInstructionPointer m).memLog = m.memLog := by
  unfold VmmpAdjustGuestInstructionPointer
  by_cases h : m.guest.flagReg.tf = true <;> simp [h]

theorem inject_vmcs_info (m : Machine) (t : InterruptionType)
    (v : InterruptionVector) (d : Bool) (e : Nat) :
    (VmmpInjectInterruption m t v d e).vmcs .kVmEntryIntrInfoField =
      interruptionInfoValue t v d := by
  unfold VmmpInjectInterruption
  split <;> simp

theorem inject_vmcs_ne (m : Machine) (t : InterruptionType)
    (v : InterruptionVector) (d : Bool) (e : Nat) (f : VmcsField)
    (h1 : f ≠ .kVmEntryIntrInfoField) (h2 : f ≠ .kVmEntryExceptionErrorCode) :
    (VmmpInjectInterruption m t v d e).vmcs f = m.vmcs f := by
  unfold VmmpInjectInterruption
  split <;> simp [h1, h2]

theorem inject_false_vmcs_ne (m : Machine) (t : InterruptionType)
    (v : InterruptionVector) (e : Nat) (f : VmcsField)
    (h1 : f ≠ .kVmEntryIntrInfoField) :
    (VmmpInjectInterruption m t v false e).vmcs f = m.vmcs f := by
  unfold VmmpInjectInterruption
  simp [h1]

theorem adjust_vmcs_guestRip (m : Machine) :
    (VmmpAdjustGuestInstructionPointer m).vmcs .kGuestRip =
      add64 m.guest.ip (m.vmcs .kVmExitInstructionLen) := by
  unfold VmmpAdjustGuestInstructionPointer
  by_cases h : m.guest.flagReg.tf = true <;>
    simp [h, inject_false_vmcs_ne]

theorem adjust_vmcs_ne (m : Machine) (f : VmcsField)
    (h1 : f ≠ .kGuestRip) (h2 : f ≠ .kVmEntryIntrInfoField)
    (h3 : f ≠ .kVmEntryInstructionLen) :
    (VmmpAdjustGuestInstructionPointer m).vmcs f = m.vmcs f := by
  unfold VmmpAdjustGuestInstructionPointer
  by_cases h : m.guest.flagReg.tf = true <;>
    simp [h, h1, h2, h3, inject_false_vmcs_ne]

theorem adjust_vmcs_tf (m : Machine) (h : m.guest.flagReg.tf = true) :
    (VmmpAdjustGuestInstructionPointer m).vmcs .kVmEntryIntrInfoField =
      interruptionInfoValue .kHardwareException .kDebugException false ∧
    (VmmpAdjustGuestInstructionPointer m).vmcs .kVmEntryInstructionLen =
      m.vmcs .kVmExitInstructionLen := by
  refine ⟨?_, ?_⟩ <;>
    simp [VmmpAdjustGuestInstructionPointer, h, inject_vmcs_info,
      inject_false_vmcs_ne]

/-- Masking through the fixed-bit MSRs is idempotent: a value of the form
`(r AND fixed1) OR fixed0` again satisfies `(v AND fixed1) OR fixed0 = v`. -/
theorem lor_land_fixed_absorb (r f0 f1 : Nat) :
    ((r &&& f1 ||| f0) &&& f1 ||| f0) = (r &&& f1 ||| f0) := by
  apply Nat.eq_of_testBit_eq
  intro i
  simp only [Nat.testBit_lor, Nat.testBit_land]
  cases r.testBit i <;> cases f0.testBit i <;> cases f1.testBit i <;> rfl

/-! ## Shared concrete machines used to instantiate the theorems -/

/-- A host oracle returning zero everywhere. -/
def oracle0 : HostOracle :=
  { msr := fun _ => 0, cpuid := fun _ _ => (0, 0, 0, 0), tsc := 0, tscAux := 0,
    dr := fun _ => 0, ioIn := 0, processDirBase := 0, sharedData := 0,
    processorDataAddr := 0 }

/-- An all-zero register file. -/
def regs0 : GpRegisters :=
  { ax := 0, bx := 0, cx := 0, dx := 0, si := 0, di := 0, bp := 0, sp := 0,
    r8 := 0, r9 := 0, r10 := 0, r11 := 0, r12 := 0, r13 := 0, r14 := 0,
    r15 := 0 }

/-- An all-clear flags view. -/
def flags0 : FlagRegister :=
  { cf := false, pf := false, af := false, zf := false, sf := false,
    tf := false, df := false, ofl := false, rest := 0 }

/-- A quiescent guest context. -/
def guest0 : GuestContext :=
  { gpRegs := regs0, flagReg := flags0, ip := 0, cr8 := 0, irql := 0,
    vmContinue := true }

/-- A quiescent machine: all state zero, empty trace, no fatal condition. -/
def machine0 : Machine :=
  { guest := guest0, vmcs := fun _ => 0, cr3 := 0, cr8 := 0, irql := 0,
    mem := fun _ => 0, trapFrameSp := 0, trapFrameIp := 0,
    processorNumber := 0, host := oracle0, trace := [], memLog := [],
    fatal := none }

/-! ## C4: instruction-pointer advancement -/

/-- **C4.** Every advance of the guest instruction pointer writes exactly
`exit_rip + reported_instruction_length` to the guest-RIP field (one
instruction skipped per exit); when the guest's trap flag was set at exit the
advance additionally injects a debug exception and copies the instruction
length into the entry-instruction-length field; and the EPT-violation handler
touches no VMCS field at all — in particular it never advances the
instruction pointer. -/
theorem c4_instruction_pointer_advance :
    (∀ m : Machine,
      (VmmpAdjustGuestInstructionPointer m).vmcs .kGuestRip =
        add64 m.guest.ip (m.vmcs .kVmExitInstructionLen)) ∧
    (∀ m : Machine, m.guest.flagReg.tf = true →
      (VmmpAdjustGuestInstructionPointer m).vmcs .kVmEntryIntrInfoField =
        interruptionInfoValue .kHardwareException .kDebugException false ∧
      (VmmpAdjustGuestInstructionPointer m).vmcs .kVmEntryInstructionLen =
        m.vmcs .kVmExitInstructionLen) ∧
    (∀ m : Machine, (VmmpHandleEptViolation m).vmcs = m.vmcs) :=
  ⟨fun m => adjust_vmcs_guestRip m,
   fun m h => adjust_vmcs_tf m h,
   fun _ => rfl⟩

/-- A machine whose guest trap flag is set, for instantiating C4. -/
def mTrapFlag : Machine :=
  { machine0 with guest := { guest0 with flagReg := { flags0 with tf := true } } }

/-- **C4 witness**: the trap-flag conjunct evaluated on a concrete machine. -/
theorem c4_witness :
    mTrapFlag.guest.flagReg.tf = true ∧
    (VmmpAdjustGuestInstructionPointer mTrapFlag).vmcs .kVmEntryIntrInfoField =
      interruptionInfoValue .kHardwareException .kDebugException false ∧
    (VmmpAdjustGuestInstructionPointer mTrapFlag).vmcs .kVmEntryInstructionLen =
      mTrapFlag.vmcs .kVmExitInstructionLen :=
  ⟨rfl, c4_instruction_pointer_advance.2.1 mTrapFlag rfl⟩

/-! ## C5: CR0/CR4 writes masked through the fixed-bit MSRs -/

/-- **C5.** For every MOV-to-CR0 and MOV-to-CR4 exit, the committed value is
the requested register value ANDed with the fixed-1 MSR and ORed with the
fixed-0 MSR, the same value is written to the guest control-register field
and its read shadow, and the committed value `v` satisfies
`(v AND fixed1) OR fixed0 = v`. -/
theorem c5_cr0_cr4_fixed_mask (m : Machine)
    (hacc : m.vmcs .kExitQualification / 16 % 4 = 0) :
    (m.vmcs .kExitQualification % 16 = 0 →
      (VmmpHandleCrAccess m).vmcs .kGuestCr0 =
        (selectRegisterGet (m.vmcs .kExitQualification / 256 % 16)
          m.guest.gpRegs &&& m.host.msr 0x487 ||| m.host.msr 0x486) ∧
      (VmmpHandleCrAccess m).vmcs .kCr0ReadShadow =
        (VmmpHandleCrAccess m).vmcs .kGuestCr0 ∧
      ((VmmpHandleCrAccess m).vmcs .kGuestCr0 &&& m.host.msr 0x487 |||
        m.host.msr 0x486) = (VmmpHandleCrAccess m).vmcs .kGuestCr0) ∧
    (m.vmcs .kExitQualification % 16 = 4 →
      (VmmpHandleCrAccess m).vmcs .kGuestCr4 =
        (selectRegisterGet (m.vmcs .kExitQualification / 256 % 16)
          m.guest.gpRegs &&& m.host.msr 0x489 ||| m.host.msr 0x488) ∧
      (VmmpHandleCrAccess m).vmcs .kCr4ReadShadow =
        (VmmpHandleCrAccess m).vmcs .kGuestCr4 ∧
      ((VmmpHandleCrAccess m).vmcs .kGuestCr4 &&& m.host.msr 0x489 |||
        m.host.msr 0x488) = (VmmpHandleCrAccess m).vmcs .kGuestCr4) := by
  constructor
  · intro h0
    simp [VmmpHandleCrAccess, hacc, h0, adjust_vmcs_ne, lor_land_fixed_absorb]
  · intro h4
    simp [VmmpHandleCrAccess, hacc, h4, adjust_vmcs_ne, lor_land_fixed_absorb]

/-- A machine whose exit qualification denotes MOV to CR4 from AX. -/
def mMovToCr4 : Machine :=
  { machine0 with vmcs := fun f => if f = .kExitQualification then 4 else 0 }

/-- **C5 witness**: both conjuncts evaluated concretely — `machine0`'s zero
qualification denotes MOV to CR0 from AX, `mMovToCr4`'s denotes MOV to
CR4. -/
theorem c5_witness :
    (machine0.vmcs .kExitQualification / 16 % 4 = 0 ∧
      machine0.vmcs .kExitQualification % 16 = 0 ∧
      (VmmpHandleCrAccess machine0).vmcs .kGuestCr0 =
        (selectRegisterGet (machine0.vmcs .kExitQualification / 256 % 16)
          machine0.guest.gpRegs &&& machine0.host.msr 0x487 |||
            machine0.host.msr 0x486)) ∧
    (mMovToCr4.vmcs .kExitQualification / 16 % 4 = 0 ∧
      mMovToCr4.vmcs .kExitQualification % 16 = 4 ∧
      (VmmpHandleCrAccess mMovToCr4).vmcs .kGuestCr4 =
        (selectRegisterGet (mMovToCr4.vmcs .kExitQualification / 256 % 16)
          mMovToCr4.guest.gpRegs &&& mMovToCr4.host.msr 0x489 |||
            mMovToCr4.host.msr 0x488)) :=
  ⟨⟨rfl, rfl, ((c5_cr0_cr4_fixed_mask machine0 rfl).1 rfl).1⟩,
   ⟨by decide, by decide,
    ((c5_cr0_cr4_fixed_mask mMovToCr4 (by decide)).2 (by decide)).1⟩⟩

/-! ## C1: CR3 writes and bit 63 -/

/-- The CR3-commit formula stated by the spec (for comparison with the
implementation): `committed = (requested AND NOT (1 << 63)) OR
(previous AND (1 << 63))`. -/
def cr3SpecCommit (requested previous : Nat) : Nat :=
  requested &&& (W64 - 1 - 2 ^ 63) ||| previous &&& 2 ^ 63

/-- A machine about to execute MOV to CR3 from AX (qualification 3) whose
previously-stored guest CR3 has bit 63 set and whose AX is zero. -/
def mCr3Bit63 : Machine :=
  { machine0 with vmcs := fun f =>
      if f = .kExitQualification then 3
      else if f = .kGuestCr3 then 2 ^ 63 else 0 }

/-- **C1 counterexample**: on `mCr3Bit63` the code commits
`0 AND NOT (1 << 63) = 0`, while the claim's formula preserves the previous
bit 63 and demands `2^63`; the committed value therefore differs from the
claimed one, i.e. the write *does* alter bit 63 of the previously-stored
CR3. -/
theorem c1_counterexample :
    (VmmpHandleCrAccess mCr3Bit63).vmcs .kGuestCr3 ≠
      cr3SpecCommit
        (selectRegisterGet (mCr3Bit63.vmcs .kExitQualification / 256 % 16)
          mCr3Bit63.guest.gpRegs)
        (mCr3Bit63.vmcs .kGuestCr3) := by
  decide

/-- **C1 (amended).** For every MOV-to-CR3 exit the committed value is the
requested register value with bit 63 cleared, `requested AND NOT (1 << 63)`,
regardless of the previously-stored value; in particular, whenever bit 63 of
the previously-stored CR3 is clear the spec's formula
`committed = (requested AND NOT (1 << 63)) OR (previous AND (1 << 63))`
holds. -/
theorem c1_cr3_commit_amended (m : Machine)
    (hacc : m.vmcs .kExitQualification / 16 % 4 = 0)
    (hcr : m.vmcs .kExitQualification % 16 = 3) :
    (VmmpHandleCrAccess m).vmcs .kGuestCr3 =
      (selectRegisterGet (m.vmcs .kExitQualification / 256 % 16)
        m.guest.gpRegs &&& (2 ^ 63 - 1)) ∧
    ((m.vmcs .kGuestCr3).testBit 63 = false →
      (VmmpHandleCrAccess m).vmcs .kGuestCr3 =
        cr3SpecCommit
          (selectRegisterGet (m.vmcs .kExitQualification / 256 % 16)
            m.guest.gpRegs)
          (m.vmcs .kGuestCr3)) := by
  have hmask : W64 - 1 - 2 ^ 63 = 2 ^ 63 - 1 := by norm_num [W64]
  have hfst : (VmmpHandleCrAccess m).vmcs .kGuestCr3 =
      (selectRegisterGet (m.vmcs .kExitQualification / 256 % 16)
        m.guest.gpRegs &&& (2 ^ 63 - 1)) := by
    simp [VmmpHandleCrAccess, hacc, hcr, adjust_vmcs_ne]
  refine ⟨hfst, fun h63 => ?_⟩
  have hz : m.vmcs .kGuestCr3 &&& 2 ^ 63 = 0 := by
    rw [Nat.and_two_pow, h63]
    rfl
  unfold cr3SpecCommit
  rw [hmask, hz, Nat.or_zero, hfst]

/-- A machine about to execute MOV to CR3 from AX whose previous guest CR3 is
zero (bit 63 clear). -/
def mCr3Clear : Machine :=
  { machine0 with vmcs := fun f => if f = .kExitQualification then 3 else 0 }

/-- **C1 witness**: the amended statement evaluated on `mCr3Clear`. -/
theorem c1_witness :
    (mCr3Clear.vmcs .kExitQualification / 16 % 4 = 0 ∧
      mCr3Clear.vmcs .kExitQualification % 16 = 3 ∧
      (mCr3Clear.vmcs .kGuestCr3).testBit 63 = false) ∧
    (VmmpHandleCrAccess mCr3Clear).vmcs .kGuestCr3 =
      (selectRegisterGet (mCr3Clear.vmcs .kExitQualification / 256 % 16)
        mCr3Clear.guest.gpRegs &&& (2 ^ 63 - 1)) ∧
    (VmmpHandleCrAccess mCr3Clear).vmcs .kGuestCr3 =
      cr3SpecCommit
        (selectRegisterGet (mCr3Clear.vmcs .kExitQualification / 256 % 16)
          mCr3Clear.guest.gpRegs)
        (mCr3Clear.vmcs .kGuestCr3) :=
  ⟨⟨by decide, by decide, by decide⟩,
   (c1_cr3_commit_amended mCr3Clear (by decide) (by decide)).1,
   (c1_cr3_commit_amended mCr3Clear (by decide) (by decide)).2 (by decide)⟩

/-! ## C3: CPUID spoofing -/

/-- Bit 31 of `2^31 - 1` is clear. -/
theorem testBit_mask31 : Nat.testBit (2 ^ 31 - 1) 31 = false := by decide

/-- **C3.** For every CPUID exit with leaf 1, the CX value returned to the
guest never has the hypervisor-present bit (bit 31) set; and for every CPUID
exit with leaf 0 the guest's result registers receive the fixed spoofed
vendor identifier — independent of the host oracle's real CPUID result —
followed by the instruction-pointer advance. -/
theorem c3_cpuid_spoof :
    (∀ m : Machine, low32 m.guest.gpRegs.ax = 1 →
      Nat.testBit ((VmmpHandleCpuid m).guest.gpRegs.cx) 31 = false) ∧
    (∀ m : Machine, low32 m.guest.gpRegs.ax = 0 →
      (VmmpHandleCpuid m).guest.gpRegs.ax = 16 ∧
      (VmmpHandleCpuid m).guest.gpRegs.bx = 0x756E6547 ∧
      (VmmpHandleCpuid m).guest.gpRegs.cx = 0x6C65746E ∧
      (VmmpHandleCpuid m).guest.gpRegs.dx = 0x49656E69 ∧
      (VmmpHandleCpuid m).vmcs .kGuestRip =
        add64 m.guest.ip (m.vmcs .kVmExitInstructionLen)) := by
  constructor
  · intro m h
    have hb : ∀ x : Nat, Nat.testBit (clearHypervisorPresentBit x) 31 =
        false := by
      intro x
      unfold clearHypervisorPresentBit
      rw [Nat.testBit_land, testBit_mask31, Bool.and_false]
    simp [VmmpHandleCpuid, h, hb]
  · intro m h
    simp [VmmpHandleCpuid, h, adjust_vmcs_guestRip]

/-- A machine whose guest requests CPUID leaf 1, with a host oracle whose
real leaf-1 ECX has the hypervisor-present bit set. -/
def mCpuidLeaf1 : Machine :=
  { machine0 with
    guest := { guest0 with gpRegs := { regs0 with ax := 1 } },
    host := { oracle0 with cpuid := fun _ _ => (0, 0, 2 ^ 31, 0) } }

/-- **C3 witness**: both conjuncts evaluated concretely (leaf 1 on
`mCpuidLeaf1`, whose host reports the hypervisor-present bit; leaf 0 on
`machine0`). -/
theorem c3_witness :
    (low32 mCpuidLeaf1.guest.gpRegs.ax = 1 ∧
      Nat.testBit ((VmmpHandleCpuid mCpuidLeaf1).guest.gpRegs.cx) 31 = false) ∧
    (low32 machine0.guest.gpRegs.ax = 0 ∧
      (VmmpHandleCpuid machine0).guest.gpRegs.ax = 16 ∧
      (VmmpHandleCpuid machine0).guest.gpRegs.bx = 0x756E6547) :=
  ⟨⟨by decide, c3_cpuid_spoof.1 mCpuidLeaf1 (by decide)⟩,
   ⟨by decide, (c3_cpuid_spoof.2 machine0 (by decide)).1,
    (c3_cpuid_spoof.2 machine0 (by decide)).2.1⟩⟩

/-! ## C2: disallowed MSR indices -/

/-- Whether an effect is a real hardware MSR access. -/
def isRealMsrAccessEffect : Effect → Bool
  | .rdmsrHw _ => true
  | .wrmsrHw _ _ => true
  | _ => false

/-- The VMCS guest-state fields to which allowed MSR indices are redirected
(SYSENTER CS/ESP/EIP, IA32_DEBUGCTL, FS/GS base). -/
def msrMappedFields : List VmcsField :=
  [.kGuestSysenterCs, .kGuestSysenterEsp, .kGuestSysenterEip,
   .kGuestIa32Debugctl, .kGuestFsBase, .kGuestGsBase]

/-- Whether an effect reads or writes one of the MSR-mapped VMCS guest-state
fields. -/
def isMsrMappedFieldAccess : Effect → Bool
  | .vmRead f => msrMappedFields.contains f
  | .vmWrite f _ => msrMappedFields.contains f
  | _ => false

/-- The exact effect trace of the disallowed-MSR path: the #GP(0x6A)
injection followed by the instruction-pointer advance (plus the trap-flag
debug injection when TF was set). -/
def invalidMsrTrace (m : Machine) : List Effect :=
  [.vmWrite .kVmEntryIntrInfoField
      (interruptionInfoValue .kHardwareException
        .kGeneralProtectionException true),
   .vmWrite .kVmEntryExceptionErrorCode 0x6A,
   .vmRead .kVmExitInstructionLen,
   .vmWrite .kGuestRip (add64 m.guest.ip (m.vmcs .kVmExitInstructionLen))] ++
  (if m.guest.flagReg.tf then
    [.vmWrite .kVmEntryIntrInfoField
        (interruptionInfoValue .kHardwareException .kDebugException false),
     .vmWrite .kVmEntryInstructionLen (m.vmcs .kVmExitInstructionLen)]
   else [])

/-- **C2.** For every RDMSR or WRMSR exit whose index (guest CX) is outside
both allowed ranges and is not the tolerated diagnostic MSR `0x400000F0`, the
handler injects #GP with error code `0x6A` and advances the guest instruction
pointer, and does nothing else: its effect trace is exactly the injection
plus the advance — in particular it contains no real hardware MSR access and
no access to any MSR-mapped VMCS guest-state field — the trapped registers
are untouched, and no VMCS field outside the injection/advance set
changes. -/
theorem c2_msr_invalid_gp (m : Machine) (readAccess : Bool)
    (hinv : isVaildMsr m.guest.gpRegs.cx = false)
    (hdiag : m.guest.gpRegs.cx ≠ 0x400000F0) :
    (VmmpHandleMsrAccess m readAccess).vmcs .kVmEntryExceptionErrorCode =
      0x6A ∧
    (VmmpHandleMsrAccess m readAccess).vmcs .kGuestRip =
      add64 m.guest.ip (m.vmcs .kVmExitInstructionLen) ∧
    (VmmpHandleMsrAccess m readAccess).trace = m.trace ++ invalidMsrTrace m ∧
    (VmmpHandleMsrAccess m readAccess).guest.gpRegs = m.guest.gpRegs ∧
    (∀ f : VmcsField, f ≠ .kVmEntryIntrInfoField →
      f ≠ .kVmEntryExceptionErrorCode → f ≠ .kGuestRip →
      f ≠ .kVmEntryInstructionLen →
      (VmmpHandleMsrAccess m readAccess).vmcs f = m.vmcs f) ∧
    (invalidMsrTrace m).all
      (fun e => !isRealMsrAccessEffect e && !isMsrMappedFieldAccess e) =
      true := by
  have hcond : (!isVaildMsr m.guest.gpRegs.cx &&
      !decide (m.guest.gpRegs.cx = 0x400000F0)) = true := by
    simp [hinv, hdiag]
  refine ⟨?_, ?_, ?_, ?_, ?_, ?_⟩
  · simp [VmmpHandleMsrAccess, hinv, hdiag, VmmpInjectInterruption,
      adjust_vmcs_ne]
  · simp [VmmpHandleMsrAccess, hinv, hdiag, VmmpInjectInterruption,
      adjust_vmcs_guestRip]
  · by_cases htf : m.guest.flagReg.tf = true <;>
      simp [VmmpHandleMsrAccess, hinv, hdiag, VmmpInjectInterruption,
        VmmpAdjustGuestInstructionPointer, invalidMsrTrace, htf]
  · simp [VmmpHandleMsrAccess, hinv, hdiag, VmmpInjectInterruption]
  · intro f h1 h2 h3 h4
    simp [VmmpHandleMsrAccess, hinv, hdiag, VmmpInjectInterruption,
      adjust_vmcs_ne, h1, h2, h3, h4]
  · by_cases htf : m.guest.flagReg.tf = true <;>
      simp [invalidMsrTrace, htf, isRealMsrAccessEffect,
        isMsrMappedFieldAccess, msrMappedFields]

/-- A machine whose guest CX holds the disallowed MSR index `0x2000`. -/
def mMsrInvalid : Machine :=
  { machine0 with guest := { guest0 with gpRegs := { regs0 with cx := 0x2000 } } }

/-- **C2 witness**: the disallowed-index path evaluated on `mMsrInvalid` (an
RDMSR of index 0x2000). -/
theorem c2_witness :
    (isVaildMsr mMsrInvalid.guest.gpRegs.cx = false ∧
      mMsrInvalid.guest.gpRegs.cx ≠ 0x400000F0) ∧
    (VmmpHandleMsrAccess mMsrInvalid true).vmcs .kVmEntryExceptionErrorCode =
      0x6A ∧
    (invalidMsrTrace mMsrInvalid).all
      (fun e => !isRealMsrAccessEffect e && !isMsrMappedFieldAccess e) =
      true :=
  ⟨⟨by decide, by decide⟩,
   (c2_msr_invalid_gp mMsrInvalid true (by decide) (by decide)).1,
   (c2_msr_invalid_gp mMsrInvalid true (by decide) (by decide)).2.2.2.2.2⟩

/-! ## C7 and C10: unsuccessful VMCALL -/

/-- **C7.** For every VMCALL exit whose hypercall number (the low 32 bits of
guest CX) lies outside the declared valid range, an invalid-opcode fault is
injected, the entry-instruction-length field is set to the exit's reported
instruction length, and the failure path does not advance the guest
instruction pointer (the guest-RIP field is untouched). -/
theorem c7_vmcall_invalid_number (m : Machine)
    (hinv : kMaximumHypercallNumber < low32 m.guest.gpRegs.cx) :
    (VmmpHandleVmCall m).vmcs .kVmEntryIntrInfoField =
      interruptionInfoValue .kHardwareException
        .kInvalidOpcodeException false ∧
    (VmmpHandleVmCall m).vmcs .kVmEntryInstructionLen =
      m.vmcs .kVmExitInstructionLen ∧
    (VmmpHandleVmCall m).vmcs .kGuestRip = m.vmcs .kGuestRip := by
  obtain ⟨k, hk⟩ : ∃ k, low32 m.guest.gpRegs.cx = k + 3 :=
    ⟨low32 m.guest.gpRegs.cx - 3,
     by unfold kMaximumHypercallNumber at hinv; omega⟩
  refine ⟨?_, ?_, ?_⟩ <;>
    simp [VmmpHandleVmCall, hk, kMaximumHypercallNumber,
      VmmpIndicateUnsuccessfulVmcall, VmmpInjectInterruption]

/-- A machine whose guest requests the out-of-range hypercall number 3. -/
def mVmcallOutOfRange : Machine :=
  { machine0 with guest := { guest0 with gpRegs := { regs0 with cx := 3 } } }

/-- **C7 witness**: the out-of-range hypercall path evaluated on
`mVmcallOutOfRange`. -/
theorem c7_witness :
    kMaximumHypercallNumber < low32 mVmcallOutOfRange.guest.gpRegs.cx ∧
    (VmmpHandleVmCall mVmcallOutOfRange).vmcs .kVmEntryIntrInfoField =
      interruptionInfoValue .kHardwareException
        .kInvalidOpcodeException false ∧
    (VmmpHandleVmCall mVmcallOutOfRange).vmcs .kVmEntryInstructionLen =
      mVmcallOutOfRange.vmcs .kVmExitInstructionLen ∧
    (VmmpHandleVmCall mVmcallOutOfRange).vmcs .kGuestRip =
      mVmcallOutOfRange.vmcs .kGuestRip :=
  ⟨by decide, c7_vmcall_invalid_number mVmcallOutOfRange (by decide)⟩

/-- Whether an effect is a write to (guest-visible) memory. -/
def isMemWriteEffect : Effect → Bool
  | .memWrite _ _ _ => true
  | _ => false

/-- Error atomicity of an unsuccessful VMCALL on machine `m`: the trapped
registers, the flags view, and memory are unchanged — in particular nothing
is written through the caller-supplied context pointer and the effect trace
contains no memory write — and the only VMCS fields changed are the
entry-interruption information (set to the invalid-opcode injection) and the
entry instruction length (set to the exit's reported length). -/
def VmcallErrorAtomic (m : Machine) : Prop :=
  (VmmpHandleVmCall m).guest.gpRegs = m.guest.gpRegs ∧
  (VmmpHandleVmCall m).guest.flagReg = m.guest.flagReg ∧
  (VmmpHandleVmCall m).mem = m.mem ∧
  (∃ δ : List Effect, (VmmpHandleVmCall m).trace = m.trace ++ δ ∧
    δ.all (fun e => !isMemWriteEffect e) = true) ∧
  (VmmpHandleVmCall m).vmcs .kVmEntryIntrInfoField =
    interruptionInfoValue .kHardwareException .kInvalidOpcodeException false ∧
  (VmmpHandleVmCall m).vmcs .kVmEntryInstructionLen =
    m.vmcs .kVmExitInstructionLen ∧
  (∀ f : VmcsField, f ≠ .kVmEntryIntrInfoField →
    f ≠ .kVmEntryInstructionLen → (VmmpHandleVmCall m).vmcs f = m.vmcs f)

/-- **C10.** Every unsuccessful VMCALL — a hypercall number outside the valid
range, or a termination request issued at non-zero guest CPL — is
error-atomic: no write through the caller-supplied context pointer, no guest
general-purpose register or flag modified, and the only guest-visible effects
are the injected invalid-opcode event and the entry-instruction-length
field. -/
theorem c10_vmcall_error_atomicity (m : Machine) :
    (kMaximumHypercallNumber < low32 m.guest.gpRegs.cx →
      VmcallErrorAtomic m) ∧
    (low32 m.guest.gpRegs.cx = 0 →
      m.vmcs .kGuestSsArBytes / 2 ^ 5 % 4 ≠ 0 → VmcallErrorAtomic m) := by
  constructor
  · intro hinv
    obtain ⟨k, hk⟩ : ∃ k, low32 m.guest.gpRegs.cx = k + 3 :=
      ⟨low32 m.guest.gpRegs.cx - 3,
       by unfold kMaximumHypercallNumber at hinv; omega⟩
    refine ⟨?_, ?_, ?_, ?_, ?_, ?_, ?_⟩
    · simp [VmmpHandleVmCall, hk, kMaximumHypercallNumber,
        VmmpIndicateUnsuccessfulVmcall, VmmpInjectInterruption]
    · simp [VmmpHandleVmCall, hk, kMaximumHypercallNumber,
        VmmpIndicateUnsuccessfulVmcall, VmmpInjectInterruption]
    · simp [VmmpHandleVmCall, hk, kMaximumHypercallNumber,
        VmmpIndicateUnsuccessfulVmcall, VmmpInjectInterruption]
    · refine ⟨[.vmWrite .kVmEntryIntrInfoField
          (interruptionInfoValue .kHardwareException
            .kInvalidOpcodeException false),
        .vmRead .kVmExitInstructionLen,
        .vmWrite .kVmEntryInstructionLen
          (m.vmcs .kVmExitInstructionLen)], ?_, rfl⟩
      simp [VmmpHandleVmCall, hk, kMaximumHypercallNumber,
        VmmpIndicateUnsuccessfulVmcall, VmmpInjectInterruption]
    · simp [VmmpHandleVmCall, hk, kMaximumHypercallNumber,
        VmmpIndicateUnsuccessfulVmcall, VmmpInjectInterruption]
    · simp [VmmpHandleVmCall, hk, kMaximumHypercallNumber,
        VmmpIndicateUnsuccessfulVmcall, VmmpInjectInterruption]
    · intro f h1 h2
      simp [VmmpHandleVmCall, hk, kMaximumHypercallNumber,
        VmmpIndicateUnsuccessfulVmcall, VmmpInjectInterruption, h1, h2]
  · intro h0 hcpl
    have hcpl32 : m.vmcs .kGuestSsArBytes / 32 % 4 ≠ 0 := by simpa using hcpl
    refine ⟨?_, ?_, ?_, ?_, ?_, ?_, ?_⟩
    · simp [VmmpHandleVmCall, h0, kMaximumHypercallNumber, VmmpGetGuestCpl,
        hcpl32, VmmpIndicateUnsuccessfulVmcall, VmmpInjectInterruption]
    · simp [VmmpHandleVmCall, h0, kMaximumHypercallNumber, VmmpGetGuestCpl,
        hcpl32, VmmpIndicateUnsuccessfulVmcall, VmmpInjectInterruption]
    · simp [VmmpHandleVmCall, h0, kMaximumHypercallNumber, VmmpGetGuestCpl,
        hcpl32, VmmpIndicateUnsuccessfulVmcall, VmmpInjectInterruption]
    · refine ⟨[.vmRead .kGuestSsArBytes,
        .vmWrite .kVmEntryIntrInfoField
          (interruptionInfoValue .kHardwareException
            .kInvalidOpcodeException false),
        .vmRead .kVmExitInstructionLen,
        .vmWrite .kVmEntryInstructionLen
          (m.vmcs .kVmExitInstructionLen)], ?_, rfl⟩
      simp [VmmpHandleVmCall, h0, kMaximumHypercallNumber, VmmpGetGuestCpl,
        hcpl32, VmmpIndicateUnsuccessfulVmcall, VmmpInjectInterruption]
    · simp [VmmpHandleVmCall, h0, kMaximumHypercallNumber, VmmpGetGuestCpl,
        hcpl32, VmmpIndicateUnsuccessfulVmcall, VmmpInjectInterruption]
    · simp [VmmpHandleVmCall, h0, kMaximumHypercallNumber, VmmpGetGuestCpl,
        hcpl32, VmmpIndicateUnsuccessfulVmcall, VmmpInjectInterruption]
    · intro f h1 h2
      simp [VmmpHandleVmCall, h0, kMaximumHypercallNumber, VmmpGetGuestCpl,
        hcpl32, VmmpIndicateUnsuccessfulVmcall, VmmpInjectInterruption, h1, h2]

/-- A machine whose guest issues the termination hypercall (number 0) from
CPL 3 (SS access rights DPL bits set to 3). -/
def mVmcallCpl3 : Machine :=
  { machine0 with vmcs := fun f => if f = .kGuestSsArBytes then 0x60 else 0 }

/-- **C10 witness**: both unsuccessful paths evaluated concretely — the
out-of-range number on `mVmcallOutOfRange` and the CPL-3 termination request
on `mVmcallCpl3`. -/
theorem c10_witness :
    (kMaximumHypercallNumber < low32 mVmcallOutOfRange.guest.gpRegs.cx ∧
      VmcallErrorAtomic mVmcallOutOfRange) ∧
    (low32 mVmcallCpl3.guest.gpRegs.cx = 0 ∧
      mVmcallCpl3.vmcs .kGuestSsArBytes / 2 ^ 5 % 4 ≠ 0 ∧
      VmcallErrorAtomic mVmcallCpl3) :=
  ⟨⟨by decide,
    (c10_vmcall_error_atomicity mVmcallOutOfRange).1 (by decide)⟩,
   ⟨by decide, by decide,
    (c10_vmcall_error_atomicity mVmcallCpl3).2 (by decide) (by decide)⟩⟩

/-! ## C6: SI/DI updates of string I/O -/

/-- For a string-form port access with a valid access size, `VmmpIoWrapper`
leaves the guest context (registers, flags, IP), the fatal marker, and the
VMCS untouched: string forms move data between the port and guest memory
only. -/
theorem ioWrapper_string_frame (m : Machine) (toMemory : Bool)
    (size port a count : Nat) (hsz : size = 1 ∨ size = 2 ∨ size = 4) :
    (VmmpIoWrapper m toMemory true size port (.memTarget a) count).guest =
      m.guest ∧
    (VmmpIoWrapper m toMemory true size port (.memTarget a) count).fatal =
      m.fatal ∧
    (VmmpIoWrapper m toMemory true size port (.memTarget a) count).vmcs =
      m.vmcs := by
  rcases hsz with rfl | rfl | rfl <;>
  · unfold VmmpIoWrapper VmmpGetKernelCr3
    by_cases hodd : m.vmcs .kGuestCr3 % 2 = 1 <;>
      cases toMemory <;>
        rcases hmf : m.fatal with _ | b <;>
          simp [hodd, hmf, unlessFatal, writeCr3]

set_option maxHeartbeats 1000000 in
/-- **C6.** For every string-form I/O exit (INS/OUTS) with a valid decoded
access size, after the port access the handler changes exactly one of guest
SI (for OUTS) or DI (for INS) by exactly `count * size_of_access` — `count`
being the guest CX value for REP-prefixed forms and 1 otherwise, and
`size_of_access` the decoded 1, 2 or 4 bytes — subtracting when the guest's
direction flag is set and adding otherwise, while the other of SI/DI is
unchanged. -/
theorem c6_io_string_si_di (m : Machine)
    (hfatal : m.fatal = none)
    (hstr : m.vmcs .kExitQualification / 16 % 2 = 1)
    (hsz : m.vmcs .kExitQualification % 8 = 0 ∨
           m.vmcs .kExitQualification % 8 = 1 ∨
           m.vmcs .kExitQualification % 8 = 3) :
    (m.vmcs .kExitQualification / 8 % 2 = 1 →
      (VmmpHandleIoPort m).guest.gpRegs.di =
        (if m.guest.flagReg.df then
          sub64 m.guest.gpRegs.di
            (mask64 ((if m.vmcs .kExitQualification / 32 % 2 = 1 then
                m.guest.gpRegs.cx else 1) *
              ioSizeOfAccess (m.vmcs .kExitQualification % 8)))
         else
          add64 m.guest.gpRegs.di
            (mask64 ((if m.vmcs .kExitQualification / 32 % 2 = 1 then
                m.guest.gpRegs.cx else 1) *
              ioSizeOfAccess (m.vmcs .kExitQualification % 8)))) ∧
      (VmmpHandleIoPort m).guest.gpRegs.si = m.guest.gpRegs.si) ∧
    (m.vmcs .kExitQualification / 8 % 2 ≠ 1 →
      (VmmpHandleIoPort m).guest.gpRegs.si =
        (if m.guest.flagReg.df then
          sub64 m.guest.gpRegs.si
            (mask64 ((if m.vmcs .kExitQualification / 32 % 2 = 1 then
                m.guest.gpRegs.cx else 1) *
              ioSizeOfAccess (m.vmcs .kExitQualification % 8)))
         else
          add64 m.guest.gpRegs.si
            (mask64 ((if m.vmcs .kExitQualification / 32 % 2 = 1 then
                m.guest.gpRegs.cx else 1) *
              ioSizeOfAccess (m.vmcs .kExitQualification % 8)))) ∧
      (VmmpHandleIoPort m).guest.gpRegs.di = m.guest.gpRegs.di) := by
  constructor <;>
    · intro hin
      rcases hsz with h | h | h <;>
        by_cases hrep : m.vmcs .kExitQualification / 32 % 2 = 1 <;>
          · refine ⟨?_, ?_⟩ <;>
              simp [VmmpHandleIoPort, hstr, hin, hrep, hfatal, h,
                ioSizeOfAccess, ioWrapper_string_frame]

/-- A machine about to execute `REP INSB` (qualification: size 1, IN, string,
REP) with CX = 5, DI = 100. -/
def mRepInsb : Machine :=
  { machine0 with
    guest := { guest0 with
      gpRegs := { regs0 with cx := 5, di := 100 } },
    vmcs := fun f => if f = .kExitQualification then 0x38 else 0 }

/-- **C6 witness**: `REP INSB` on `mRepInsb` advances DI by
`5 * 1` and leaves SI unchanged. -/
theorem c6_witness :
    (mRepInsb.fatal = none ∧
      mRepInsb.vmcs .kExitQualification / 16 % 2 = 1 ∧
      mRepInsb.vmcs .kExitQualification % 8 = 0 ∧
      mRepInsb.vmcs .kExitQualification / 8 % 2 = 1) ∧
    (VmmpHandleIoPort mRepInsb).guest.gpRegs.di =
      (if mRepInsb.guest.flagReg.df then
        sub64 mRepInsb.guest.gpRegs.di
          (mask64 ((if mRepInsb.vmcs .kExitQualification / 32 % 2 = 1 then
              mRepInsb.guest.gpRegs.cx else 1) *
            ioSizeOfAccess (mRepInsb.vmcs .kExitQualification % 8)))
       else
        add64 mRepInsb.guest.gpRegs.di
          (mask64 ((if mRepInsb.vmcs .kExitQualification / 32 % 2 = 1 then
              mRepInsb.guest.gpRegs.cx else 1) *
            ioSizeOfAccess (mRepInsb.vmcs .kExitQualification % 8)))) ∧
    (VmmpHandleIoPort mRepInsb).guest.gpRegs.si =
      mRepInsb.guest.gpRegs.si :=
  ⟨⟨rfl, by decide, by decide, by decide⟩,
   ((c6_io_string_si_di mRepInsb rfl (by decide)
      (Or.inl (by decide))).1 (by decide))⟩


/-! ## C8: scoped guest-CR3 windows -/

/-- The value `VmmpGetKernelCr3` returns, as a pure function of the
machine. -/
def kernelCr3Value (m : Machine) : Nat :=
  if m.vmcs .kGuestCr3 % 2 = 1 then m.host.processDirBase
  else m.vmcs .kGuestCr3

@[simp]
theorem segmentBaseRead_cr3 (m : Machine) (sr : Nat) :
    (segmentBaseRead m sr).1.cr3 = m.cr3 := by
  unfold segmentBaseRead
  split <;> simp

@[simp]
theorem segmentBaseRead_memLog (m : Machine) (sr : Nat) :
    (segmentBaseRead m sr).1.memLog = m.memLog := by
  unfold segmentBaseRead
  split <;> simp

@[simp]
theorem segmentBaseRead_guest (m : Machine) (sr : Nat) :
    (segmentBaseRead m sr).1.guest = m.guest := by
  unfold segmentBaseRead
  split <;> simp

@[simp]
theorem segmentBaseRead_vmcs (m : Machine) (sr : Nat) :
    (segmentBaseRead m sr).1.vmcs = m.vmcs := by
  unfold segmentBaseRead
  split <;> simp

@[simp]
theorem segmentBaseRead_mem (m : Machine) (sr : Nat) :
    (segmentBaseRead m sr).1.mem = m.mem := by
  unfold segmentBaseRead
  split <;> simp

@[simp]
theorem segmentBaseRead_host (m : Machine) (sr : Nat) :
    (segmentBaseRead m sr).1.host = m.host := by
  unfold segmentBaseRead
  split <;> simp

@[simp]
theorem segmentBaseRead_fatal (m : Machine) (sr : Nat) :
    (segmentBaseRead m sr).1.fatal = m.fatal := by
  unfold segmentBaseRead
  split <;> simp

@[simp]
theorem segmentBaseRead_irql (m : Machine) (sr : Nat) :
    (segmentBaseRead m sr).1.irql = m.irql := by
  unfold segmentBaseRead
  split <;> simp

@[simp]
theorem segmentBaseRead_cr8 (m : Machine) (sr : Nat) :
    (segmentBaseRead m sr).1.cr8 = m.cr8 := by
  unfold segmentBaseRead
  split <;> simp

@[simp]
theorem computeOperationAddress_fst (m : Machine) (info displacement : Nat) :
    (computeOperationAddress m info displacement).1 =
      (segmentBaseRead m (info / 2 ^ 15 % 8)).1 := rfl

/-- The GDTR/IDTR emulator restores the dispatcher's CR3 on every path, and
every guest-memory dereference it performs happens while the guest's kernel
CR3 is loaded. -/
theorem gdtr_window (m : Machine) :
    (VmmpHandleGdtrOrIdtrAccess m).cr3 = m.cr3 ∧
    ((VmmpHandleGdtrOrIdtrAccess m).memLog.drop m.memLog.length).all
      (fun e => e.1 == kernelCr3Value m) = true := by
  constructor <;>
  · unfold VmmpHandleGdtrOrIdtrAccess VmmpGetKernelCr3
    by_cases hodd : m.vmcs .kGuestCr3 % 2 = 1 <;>
      · simp [hodd, kernelCr3Value, memReadOp, memWriteOp, List.drop_left]
        try (split <;>
          simp [hodd, kernelCr3Value, memReadOp, memWriteOp, List.drop_left])
        all_goals try (rintro a b (⟨ha, -⟩ | ⟨ha, -⟩) <;> exact ha)


/-- The LDTR/TR emulator restores the dispatcher's CR3 on every path, and
every guest-memory dereference it performs happens while the guest's kernel
CR3 is loaded. -/
theorem ldtr_window (m : Machine) :
    (VmmpHandleLdtrOrTrAccess m).cr3 = m.cr3 ∧
    ((VmmpHandleLdtrOrTrAccess m).memLog.drop m.memLog.length).all
      (fun e => e.1 == kernelCr3Value m) = true := by
  constructor <;>
  · unfold VmmpHandleLdtrOrTrAccess VmmpGetKernelCr3
    by_cases hreg : (low32 (m.vmcs .kVmxInstructionInfo)).testBit 10 =
        true <;>
      by_cases hodd : m.vmcs .kGuestCr3 % 2 = 1 <;>
        · simp [hreg, hodd, kernelCr3Value, memReadOp, memWriteOp,
            readSelector, writeSelector, List.drop_left]
          try (split <;>
            simp [hreg, hodd, kernelCr3Value, memReadOp, memWriteOp,
              readSelector, writeSelector, List.drop_left])
          all_goals try (rintro a b (⟨ha, -⟩ | ⟨ha, -⟩) <;> exact ha)

/-- The I/O wrapper restores the dispatcher's CR3 on every path that returns
to the dispatcher (the only non-restoring path is the fatal bug check, which
never returns), and every guest-memory dereference it performs happens while
the guest's kernel CR3 is loaded. -/
theorem ioWrapper_window (m : Machine) (toMemory isString : Bool)
    (sizeOfAccess port count : Nat) (address : OperandTarget) :
    ((VmmpIoWrapper m toMemory isString sizeOfAccess port address
        count).fatal = none →
      (VmmpIoWrapper m toMemory isString sizeOfAccess port address
        count).cr3 = m.cr3) ∧
    ((VmmpIoWrapper m toMemory isString sizeOfAccess port address
        count).memLog.drop m.memLog.length).all
      (fun e => e.1 == kernelCr3Value m) = true := by
  constructor <;>
  · unfold VmmpIoWrapper VmmpGetKernelCr3
    by_cases hodd : m.vmcs .kGuestCr3 % 2 = 1 <;>
      by_cases hsz : (sizeOfAccess = 1 ∨ sizeOfAccess = 2 ∨
          sizeOfAccess = 4) <;>
        cases toMemory <;> cases isString <;> cases address <;>
          rcases hmf : m.fatal with _ | b <;>
            simp [hodd, hsz, hmf, kernelCr3Value, memReadOp, memWriteOp,
              unlessFatal, writeCr3, List.drop_left]

/-- **C8.** Each of the three handler paths that load the guest's
address-space root to dereference guest virtual addresses — the GDTR/IDTR
emulator, the LDTR/TR emulator, and the I/O wrapper — restores the host's
own CR3 before returning to the dispatcher on every returning path (the I/O
wrapper's only non-restoring path is the never-returning fatal stop), and
every guest-memory dereference any of them performs happens inside the
window, while the guest's kernel CR3 is the live address-space root. -/
theorem c8_guest_cr3_windows :
    (∀ m : Machine,
      (VmmpHandleGdtrOrIdtrAccess m).cr3 = m.cr3 ∧
      ((VmmpHandleGdtrOrIdtrAccess m).memLog.drop m.memLog.length).all
        (fun e => e.1 == kernelCr3Value m) = true) ∧
    (∀ m : Machine,
      (VmmpHandleLdtrOrTrAccess m).cr3 = m.cr3 ∧
      ((VmmpHandleLdtrOrTrAccess m).memLog.drop m.memLog.length).all
        (fun e => e.1 == kernelCr3Value m) = true) ∧
    (∀ (m : Machine) (toMemory isString : Bool)
        (sizeOfAccess port count : Nat) (address : OperandTarget),
      ((VmmpIoWrapper m toMemory isString sizeOfAccess port address
          count).fatal = none →
        (VmmpIoWrapper m toMemory isString sizeOfAccess port address
          count).cr3 = m.cr3) ∧
      ((VmmpIoWrapper m toMemory isString sizeOfAccess port address
          count).memLog.drop m.memLog.length).all
        (fun e => e.1 == kernelCr3Value m) = true) :=
  ⟨gdtr_window, ldtr_window, ioWrapper_window⟩

/-- **C8 witness**: the I/O-wrapper conjunct evaluated on a concrete
non-fatal OUTS access (its CR3-restoration hypothesis discharged
concretely). -/
theorem c8_witness :
    (VmmpIoWrapper machine0 false true 1 0x60 (.memTarget 0x1000)
      1).fatal = none ∧
    (VmmpIoWrapper machine0 false true 1 0x60 (.memTarget 0x1000)
      1).cr3 = machine0.cr3 ∧
    ((VmmpIoWrapper machine0 false true 1 0x60 (.memTarget 0x1000)
        1).memLog.drop machine0.memLog.length).all
      (fun e => e.1 == kernelCr3Value machine0) = true :=
  ⟨by decide,
   (c8_guest_cr3_windows.2.2 machine0 false true 1 0x60 1
     (.memTarget 0x1000)).1 (by decide),
   (c8_guest_cr3_windows.2.2 machine0 false true 1 0x60 1
     (.memTarget 0x1000)).2⟩


/-! ## C9: IRQL and CR8 across the dispatcher -/

/-- Generic preservation property of a handler: the saved IRQL and CR8 in
the guest context, the live host IRQL, the live host CR8, all unchanged. -/
def PreservesIrqlCr8 (F : Machine → Machine) : Prop :=
  ∀ m : Machine,
    (F m).guest.irql = m.guest.irql ∧ (F m).irql = m.irql ∧
    (F m).cr8 = m.cr8 ∧ (F m).guest.cr8 = m.guest.cr8

theorem pres_exception : PreservesIrqlCr8 VmmpHandleException := by
  intro m
  refine ⟨?_, ?_, ?_, ?_⟩ <;>
  · simp only [VmmpHandleException]
    repeat' split
    all_goals simp

theorem pres_cpuid : PreservesIrqlCr8 VmmpHandleCpuid := by
  intro m
  refine ⟨?_, ?_, ?_, ?_⟩ <;>
  · simp only [VmmpHandleCpuid]
    repeat' split
    all_goals simp

theorem pres_rdtsc : PreservesIrqlCr8 VmmpHandleRdtsc := by
  intro m
  refine ⟨?_, ?_, ?_, ?_⟩ <;> simp [VmmpHandleRdtsc]

theorem pres_rdtscp : PreservesIrqlCr8 VmmpHandleRdtscp := by
  intro m
  refine ⟨?_, ?_, ?_, ?_⟩ <;> simp [VmmpHandleRdtscp]

theorem pres_xsetbv : PreservesIrqlCr8 VmmpHandleXsetbv := by
  intro m
  refine ⟨?_, ?_, ?_, ?_⟩ <;> simp [VmmpHandleXsetbv]

theorem pres_invd : PreservesIrqlCr8 VmmpHandleInvalidateInternalCaches := by
  intro m
  refine ⟨?_, ?_, ?_, ?_⟩ <;> simp [VmmpHandleInvalidateInternalCaches]

theorem pres_invlpg : PreservesIrqlCr8 VmmpHandleInvalidateTlbEntry := by
  intro m
  refine ⟨?_, ?_, ?_, ?_⟩ <;> simp [VmmpHandleInvalidateTlbEntry]

theorem pres_msr (r : Bool) :
    PreservesIrqlCr8 (fun m => VmmpHandleMsrAccess m r) := by
  intro m
  refine ⟨?_, ?_, ?_, ?_⟩ <;>
  · simp only [VmmpHandleMsrAccess]
    repeat' split
    all_goals simp

theorem pres_gdtr : PreservesIrqlCr8 VmmpHandleGdtrOrIdtrAccess := by
  intro m
  refine ⟨?_, ?_, ?_, ?_⟩ <;>
  · simp only [VmmpHandleGdtrOrIdtrAccess, VmmpGetKernelCr3, memReadOp,
      memWriteOp]
    repeat' split
    all_goals simp

theorem pres_ldtr : PreservesIrqlCr8 VmmpHandleLdtrOrTrAccess := by
  intro m
  refine ⟨?_, ?_, ?_, ?_⟩ <;>
  · simp only [VmmpHandleLdtrOrTrAccess, VmmpGetKernelCr3, memReadOp,
      memWriteOp, readSelector, writeSelector]
    repeat' split
    all_goals simp

set_option maxHeartbeats 1000000 in
theorem pres_dr : PreservesIrqlCr8 VmmpHandleDrAccess := by
  intro m
  obtain ⟨q8, hq8b, hq8⟩ : ∃ k, k < 8 ∧ m.vmcs .kExitQualification % 8 = k :=
    ⟨_, Nat.mod_lt _ (by norm_num), rfl⟩
  refine ⟨?_, ?_, ?_, ?_⟩ <;>
  · rw [VmmpHandleDrAccess]
    simp only [VmmpGetGuestCpl]
    interval_cases q8 <;>
    · simp [hq8]
      all_goals repeat' split
      all_goals simp

theorem ioWrapper_pres (m : Machine) (toMemory isString : Bool)
    (size port count : Nat) (t : OperandTarget) :
    (VmmpIoWrapper m toMemory isString size port t count).guest.irql =
        m.guest.irql ∧
    (VmmpIoWrapper m toMemory isString size port t count).irql = m.irql ∧
    (VmmpIoWrapper m toMemory isString size port t count).guest.cr8 =
        m.guest.cr8 ∧
    (VmmpIoWrapper m toMemory isString size port t count).cr8 = m.cr8 := by
  unfold VmmpIoWrapper VmmpGetKernelCr3
  by_cases hodd : m.vmcs .kGuestCr3 % 2 = 1 <;>
    by_cases hsz : size = 1 ∨ size = 2 ∨ size = 4 <;>
      cases toMemory <;> cases isString <;> cases t <;>
        rcases hmf : m.fatal with _ | b <;>
          simp [hodd, hsz, hmf, unlessFatal, writeCr3, bugCheck, memReadOp,
            memWriteOp, setGpRegs]

theorem ioWrapper_guest_irql (m : Machine) (toMemory isString : Bool)
    (size port count : Nat) (t : OperandTarget) :
    (VmmpIoWrapper m toMemory isString size port t count).guest.irql =
      m.guest.irql :=
  (ioWrapper_pres m toMemory isString size port count t).1

theorem ioWrapper_machine_irql (m : Machine) (toMemory isString : Bool)
    (size port count : Nat) (t : OperandTarget) :
    (VmmpIoWrapper m toMemory isString size port t count).irql = m.irql :=
  (ioWrapper_pres m toMemory isString size port count t).2.1

theorem ioWrapper_guest_cr8 (m : Machine) (toMemory isString : Bool)
    (size port count : Nat) (t : OperandTarget) :
    (VmmpIoWrapper m toMemory isString size port t count).guest.cr8 =
      m.guest.cr8 :=
  (ioWrapper_pres m toMemory isString size port count t).2.2.1

theorem ioWrapper_machine_cr8 (m : Machine) (toMemory isString : Bool)
    (size port count : Nat) (t : OperandTarget) :
    (VmmpIoWrapper m toMemory isString size port t count).cr8 = m.cr8 :=
  (ioWrapper_pres m toMemory isString size port count t).2.2.2

set_option maxHeartbeats 2000000 in
theorem pres_io : PreservesIrqlCr8 VmmpHandleIoPort := by
  intro m
  refine ⟨?_, ?_, ?_, ?_⟩ <;>
  · simp only [VmmpHandleIoPort, unlessFatal]
    repeat' split
    all_goals simp [ioWrapper_guest_irql, ioWrapper_machine_irql,
      ioWrapper_guest_cr8, ioWrapper_machine_cr8]

theorem pres_vmx : PreservesIrqlCr8 VmmpHandleVmx := by
  intro m
  refine ⟨?_, ?_, ?_, ?_⟩ <;> simp [VmmpHandleVmx]

theorem pres_vmcall : PreservesIrqlCr8 VmmpHandleVmCall := by
  intro m
  refine ⟨?_, ?_, ?_, ?_⟩ <;>
  · simp only [VmmpHandleVmCall, VmmpGetGuestCpl,
      VmmpIndicateSuccessfulVmcall, VmmpIndicateUnsuccessfulVmcall,
      VmmpHandleVmCallTermination, memWriteOp]
    repeat' split
    all_goals simp

theorem pres_eptViolation : PreservesIrqlCr8 VmmpHandleEptViolation := by
  intro m
  refine ⟨?_, ?_, ?_, ?_⟩ <;> simp [VmmpHandleEptViolation]

theorem pres_eptMisconfig : PreservesIrqlCr8 VmmpHandleEptMisconfig := by
  intro m
  refine ⟨?_, ?_, ?_, ?_⟩ <;> simp [VmmpHandleEptMisconfig, bugCheck]

theorem pres_tripleFault : PreservesIrqlCr8 VmmpHandleTripleFault := by
  intro m
  refine ⟨?_, ?_, ?_, ?_⟩ <;> simp [VmmpHandleTripleFault, bugCheck]

theorem pres_unexpected : PreservesIrqlCr8 VmmpHandleUnexpectedExit := by
  intro m
  refine ⟨?_, ?_, ?_, ?_⟩ <;> simp [VmmpHandleUnexpectedExit, bugCheck]

theorem pres_mtf : PreservesIrqlCr8 VmmpHandleMonitorTrap := by
  intro m
  refine ⟨?_, ?_, ?_, ?_⟩ <;> simp [VmmpHandleMonitorTrap, bugCheck]

/-- The CR-access handler preserves the saved IRQL, the live IRQL, and the
live CR8 unconditionally (only the guest-context CR8 can change, and only on
a MOV-to-CR8). -/
theorem pres_crAccess (m : Machine) :
    (VmmpHandleCrAccess m).guest.irql = m.guest.irql ∧
    (VmmpHandleCrAccess m).irql = m.irql ∧
    (VmmpHandleCrAccess m).cr8 = m.cr8 := by
  refine ⟨?_, ?_, ?_⟩ <;>
  · simp only [VmmpHandleCrAccess]
    repeat' split
    all_goals simp

/-- Unless the exit is a MOV to CR8, the CR-access handler also leaves the
guest-context CR8 unchanged. -/
theorem pres_crAccess_guest_cr8 (m : Machine)
    (h : ¬(m.vmcs .kExitQualification / 16 % 4 = 0 ∧
        m.vmcs .kExitQualification % 16 = 8)) :
    (VmmpHandleCrAccess m).guest.cr8 = m.guest.cr8 := by
  simp only [VmmpHandleCrAccess]
  repeat' split
  all_goals try (exact absurd ⟨by assumption, by assumption⟩ h)
  all_goals simp

/-- The exit-reason dispatch preserves the saved IRQL, the live IRQL, and the
live CR8 for every exit reason. -/
theorem handleVmExit_frame (m : Machine) :
    (VmmpHandleVmExit m).guest.irql = m.guest.irql ∧
    (VmmpHandleVmExit m).irql = m.irql ∧
    (VmmpHandleVmExit m).cr8 = m.cr8 := by
  have frame3 : ∀ {F : Machine → Machine}, PreservesIrqlCr8 F →
      ∀ mm : Machine, (F mm).guest.irql = mm.guest.irql ∧
        (F mm).irql = mm.irql ∧ (F mm).cr8 = mm.cr8 :=
    fun hp mm => ⟨(hp mm).1, (hp mm).2.1, (hp mm).2.2.1⟩
  simp only [VmmpHandleVmExit]
  split
  · exact frame3 pres_exception _
  · exact frame3 pres_tripleFault _
  · exact frame3 pres_cpuid _
  · exact frame3 pres_invd _
  · exact frame3 pres_invlpg _
  · exact frame3 pres_rdtsc _
  · exact frame3 pres_vmcall _
  · exact frame3 pres_vmx _
  · exact frame3 pres_vmx _
  · exact frame3 pres_vmx _
  · exact frame3 pres_vmx _
  · exact frame3 pres_vmx _
  · exact frame3 pres_vmx _
  · exact frame3 pres_vmx _
  · exact frame3 pres_vmx _
  · exact frame3 pres_vmx _
  · exact pres_crAccess _
  · exact frame3 pres_dr _
  · exact frame3 pres_io _
  · exact frame3 (pres_msr true) _
  · exact frame3 (pres_msr false) _
  · exact frame3 pres_mtf _
  · exact frame3 pres_gdtr _
  · exact frame3 pres_ldtr _
  · exact frame3 pres_eptViolation _
  · exact frame3 pres_eptMisconfig _
  · exact frame3 pres_vmx _
  · exact frame3 pres_rdtscp _
  · exact frame3 pres_vmx _
  · exact frame3 pres_xsetbv _
  · exact frame3 pres_unexpected _

/-- Unless the exit is a MOV to CR8, the exit-reason dispatch also leaves the
guest-context CR8 unchanged. -/
theorem handleVmExit_guest_cr8 (m : Machine)
    (h : ¬(low32 (m.vmcs .kVmExitReason) % 2 ^ 16 = 28 ∧
        m.vmcs .kExitQualification / 16 % 4 = 0 ∧
        m.vmcs .kExitQualification % 16 = 8)) :
    (VmmpHandleVmExit m).guest.cr8 = m.guest.cr8 := by
  simp only [VmmpHandleVmExit]
  split
  · exact (pres_exception _).2.2.2
  · exact (pres_tripleFault _).2.2.2
  · exact (pres_cpuid _).2.2.2
  · exact (pres_invd _).2.2.2
  · exact (pres_invlpg _).2.2.2
  · exact (pres_rdtsc _).2.2.2
  · exact (pres_vmcall _).2.2.2
  · exact (pres_vmx _).2.2.2
  · exact (pres_vmx _).2.2.2
  · exact (pres_vmx _).2.2.2
  · exact (pres_vmx _).2.2.2
  · exact (pres_vmx _).2.2.2
  · exact (pres_vmx _).2.2.2
  · exact (pres_vmx _).2.2.2
  · exact (pres_vmx _).2.2.2
  · exact (pres_vmx _).2.2.2
  · exact pres_crAccess_guest_cr8 _
      (fun hc => h ⟨by assumption, hc.1, hc.2⟩)
  · exact (pres_dr _).2.2.2
  · exact (pres_io _).2.2.2
  · exact ((pres_msr true) _).2.2.2
  · exact ((pres_msr false) _).2.2.2
  · exact (pres_mtf _).2.2.2
  · exact (pres_gdtr _).2.2.2
  · exact (pres_ldtr _).2.2.2
  · exact (pres_eptViolation _).2.2.2
  · exact (pres_eptMisconfig _).2.2.2
  · exact (pres_vmx _).2.2.2
  · exact (pres_rdtscp _).2.2.2
  · exact (pres_vmx _).2.2.2
  · exact (pres_xsetbv _).2.2.2
  · exact (pres_unexpected _).2.2.2

@[simp]
theorem dispatchEntry_guest_irql (m : Machine) :
    (dispatchEntry m).guest.irql = m.irql := by
  unfold dispatchEntry
  by_cases h : m.irql < 2 <;> simp [h]

@[simp]
theorem dispatchEntry_guest_cr8 (m : Machine) :
    (dispatchEntry m).guest.cr8 = m.cr8 := by
  unfold dispatchEntry
  by_cases h : m.irql < 2 <;> simp [h]

@[simp]
theorem dispatchEntry_cr8 (m : Machine) :
    (dispatchEntry m).cr8 = m.cr8 := by
  unfold dispatchEntry
  by_cases h : m.irql < 2 <;> simp [h]

@[simp]
theorem dispatchEntry_vmcs (m : Machine) :
    (dispatchEntry m).vmcs = m.vmcs := by
  unfold dispatchEntry
  by_cases h : m.irql < 2 <;> simp [h]

theorem dispatchEntry_irql (m : Machine) :
    (dispatchEntry m).irql = if m.irql < 2 then 2 else m.irql := by
  unfold dispatchEntry
  by_cases h : m.irql < 2 <;> simp [h]

/-- A MOV-to-CR8 exit: reason 28, qualification 8 (access type 0 = MOV to
CR, control register 8, source register AX), guest AX holding 5, entry CR8
zero. -/
def mC9MovToCr8 : Machine :=
  { machine0 with
    vmcs := fun f =>
      if f = .kVmExitReason then 28
      else if f = .kExitQualification then 8 else 0,
    guest := { guest0 with gpRegs := { regs0 with ax := 5 } } }

/-- An INVD exit (reason 13), a simple exit that runs to completion. -/
def mC9Invd : Machine :=
  { machine0 with vmcs := fun f => if f = .kVmExitReason then 13 else 0 }

/-- **C9 counterexample**: on the MOV-to-CR8 exit `mC9MovToCr8` the
dispatcher returns normally (no fatal stop), yet the CR8 written back at
exit is the guest's requested value 5, not the value 0 that was read at
entry — `VmmpHandleCrAccess` overwrites the saved CR8 slot of the guest
context and `VmmVmExitHandler` writes that slot back. -/
theorem c9_counterexample :
    (VmmVmExitHandler mC9MovToCr8).1.fatal = none ∧
    (VmmVmExitHandler mC9MovToCr8).1.cr8 = 5 ∧
    mC9MovToCr8.cr8 = 0 := by decide

/-- **C9 (amended).** For every exit on which the dispatcher returns (no
fatal bug check), the IRQL after return equals the IRQL at entry; and
whenever the exit is not a MOV-to-CR8 exit (reason 28 with access type 0 on
control register 8), the CR8 written back at exit equals the CR8 read at
entry.  On MOV-to-CR8 exits the handler deliberately replaces the saved
value with the guest's requested one, so the entry value is not restored
there (see the counterexample). -/
theorem c9_irql_cr8_amended (m : Machine)
    (hfatal : (VmmVmExitHandler m).1.fatal = none) :
    (VmmVmExitHandler m).1.irql = m.irql ∧
    (¬(low32 (m.vmcs .kVmExitReason) % 2 ^ 16 = 28 ∧
        m.vmcs .kExitQualification / 16 % 4 = 0 ∧
        m.vmcs .kExitQualification % 16 = 8) →
      (VmmVmExitHandler m).1.cr8 = m.cr8) := by
  have hfr := handleVmExit_frame (dispatchEntry m)
  have hgi : (VmmpHandleVmExit (dispatchEntry m)).guest.irql = m.irql := by
    rw [hfr.1, dispatchEntry_guest_irql]
  have hxirql : (VmmpHandleVmExit (dispatchEntry m)).irql =
      if m.irql < 2 then 2 else m.irql := by
    rw [hfr.2.1, dispatchEntry_irql]
  rcases hf : (VmmpHandleVmExit (dispatchEntry m)).fatal with _ | b
  · constructor
    · simp only [VmmVmExitHandler]
      by_cases hvc :
          (VmmpHandleVmExit (dispatchEntry m)).guest.vmContinue = true <;>
        by_cases hirql : m.irql < 2 <;>
          simp [unlessFatal, hf, hvc, hgi, hirql, hxirql]
    · intro hn
      have h' : ¬(low32 ((dispatchEntry m).vmcs .kVmExitReason) % 2 ^ 16 = 28 ∧
          (dispatchEntry m).vmcs .kExitQualification / 16 % 4 = 0 ∧
          (dispatchEntry m).vmcs .kExitQualification % 16 = 8) := by
        simpa using hn
      have hg8 : (VmmpHandleVmExit (dispatchEntry m)).guest.cr8 = m.cr8 := by
        rw [handleVmExit_guest_cr8 (dispatchEntry m) h', dispatchEntry_guest_cr8]
      simp only [VmmVmExitHandler]
      by_cases hvc :
          (VmmpHandleVmExit (dispatchEntry m)).guest.vmContinue = true <;>
        by_cases hirql : m.irql < 2 <;>
          simp [unlessFatal, hf, hvc, hgi, hirql, hg8]
  · exfalso
    simp only [VmmVmExitHandler] at hfatal
    simp [unlessFatal, hf] at hfatal

/-- **C9 witness**: the amended statement evaluated on the INVD exit
`mC9Invd` — the dispatcher returns, the IRQL is restored, and (the exit not
being a MOV to CR8) so is the CR8. -/
theorem c9_witness :
    (VmmVmExitHandler mC9Invd).1.irql = mC9Invd.irql ∧
    (¬(low32 (mC9Invd.vmcs .kVmExitReason) % 2 ^ 16 = 28 ∧
        mC9Invd.vmcs .kExitQualification / 16 % 4 = 0 ∧
        mC9Invd.vmcs .kExitQualification % 16 = 8) →
      (VmmVmExitHandler mC9Invd).1.cr8 = mC9Invd.cr8) :=
  c9_irql_cr8_amended mC9Invd (by decide)

end Vmm
